import Mathlib

/-!
# Proximity presence: the radar screen's nearby-user set and location room

A shallow embedding of `src/screens/RadarScreen.js`, followed by the requests list
(`src/screens/FriendRequestsScreen.js`), the pass session (`src/screens/PassScreen.js`),
the socket module (`src/socket.js`) and the notification router
(`src/services/notificationService.js`).

* Values read from JSON payloads or from storage are strings or absent; `Option String`
  stands for them, `none` for `undefined`/`null`.  JavaScript truthiness makes `none`
  and the empty string falsy.
* React state is an explicit record (`RadarState`).  The refs `isOpenRef`,
  `placeIdRef`, `userIdRef` and `tokenRef` mirror the state variables they are assigned
  from (lines 158-180) and are read from the same record.
* A socket handler or a poll completion is a function from state to state: every
  `setUsers` call is one atomic replacement of the `users` field.
* The hash in `buildRadarUser` is kept exact on integers; JavaScript numbers agree
  with it as long as the magnitude stays below `2^53`.
* The distance in `buildRadarUser` is a double: the division and the addition of line 104
  each round to the nearest double, a tie to the even mantissa (`roundDouble`).
-/

namespace RadarScreen

/-! ## JavaScript primitives -/

/-- Truthiness of a string-or-absent value: absent and `""` are falsy. -/
def truthy : Option String → Bool
  | some s => decide (s ≠ "")
  | none => false

/-- The operator `a || b` on string-or-absent values. -/
def jsOr (a b : Option String) : Option String :=
  if truthy a then a else b

/-- UTF-16 code units of one character, as `charCodeAt` sees them. -/
def charCodes (c : Char) : List Nat :=
  if c.toNat < 65536 then [c.toNat]
  else [55296 + (c.toNat - 65536) / 1024, 56320 + (c.toNat - 65536) % 1024]

/-- The sequence `id.charCodeAt(0), ..., id.charCodeAt(id.length - 1)`. -/
def codeUnits (s : String) : List Nat :=
  s.toList.flatMap charCodes

/-- ToInt32: reduction of an integer into the signed 32-bit range. -/
def toInt32 (x : Int) : Int :=
  (x + 2147483648) % 4294967296 - 2147483648

/-- The expression `hash << 5`. -/
def shl5 (hash : Int) : Int :=
  toInt32 (toInt32 hash * 32)

/-- One iteration of the loop body `hash = id.charCodeAt(i) + ((hash << 5) - hash)`. -/
def hashStep (hash : Int) (code : Nat) : Int :=
  (code : Int) + (shl5 hash - hash)

/-- The loop of `buildRadarUser`, lines 98-101. -/
def idHash (id : String) : Int :=
  (codeUnits id).foldl hashStep 0

/-- The test `s.includes(needle)` on character lists. -/
def includesChars (needle : List Char) : List Char → Bool
  | [] => needle.isEmpty
  | c :: cs => needle.isPrefixOf (c :: cs) || includesChars needle cs

/-- The test `s.includes(needle)`. -/
def includes (s needle : String) : Bool :=
  includesChars needle.toList s.toList

/-! ## Data model -/

/-- A raw server user record. -/
structure RawUser where
  user_id : Option String := none
  id : Option String := none
  display_name : Option String := none
  name : Option String := none
  vibe : Option String := none
  gender : Option String := none
  profile_photo_key : Option String := none
  socials : Option (List (String × String)) := none
  deriving DecidableEq, Repr

/-- An entry of the nearby-user set, the object `buildRadarUser` returns. -/
structure RadarUser where
  id : String
  name : String
  vibe : String
  gender : Option String
  profilePhoto : Option String
  socials : List (String × String)
  angle : Nat
  distance : ℚ
  deriving DecidableEq

/-- The two shapes `setError` is called with in the radar screen. -/
inductive RadarError where
  | object (type message : String) (action : Option String)
  | text (message : String)
  deriving DecidableEq

/-- The React state of the radar screen that presence and room handling read and write. -/
structure RadarState where
  users : List RadarUser := []
  isOpen : Bool := false
  placeId : Option String := none
  userId : Option String := none
  token : Option String := none
  hasLocation : Bool := false
  hasSocket : Bool := false
  socketConnected : Bool := false
  error : Option RadarError := none
  deriving DecidableEq

/-- Payload of the `nearby_users` event. -/
structure NearbyUsersPayload where
  place_id : Option String := none
  users : Option (List RawUser) := none

/-- Payload of the `location_update` event. -/
structure LocationUpdatePayload where
  place_id : Option String := none
  user : Option RawUser := none
  event_type : Option String := none

/-- Outcome of `makeAuthenticatedRequest` for `view_nearby_people`: the parsed body, or a
thrown error with its message. -/
inductive FetchResult where
  | data (success : Bool) (users : List RawUser)
  | failure (message : String)

/-! ## Double-precision arithmetic of line 104

A positive double in the normal range is `m / 2^s` with `2^52 ≤ m ≤ 2^53`; it is kept as
the pair `(m, s)`, and zero as `(0, 0)`. -/

/-- The quotient `n / d` rounded to the nearest integer, a tie to the even one. -/
def roundHalfEven (n d : Nat) : Nat :=
  let q := n / d
  let r := n % d
  if 2 * r < d then q
  else if d < 2 * r then q + 1
  else if q % 2 = 0 then q else q + 1

/-- The floor of the binary logarithm, by halving; the first argument bounds the number of
halvings and `floorLog2` passes the number itself. -/
def floorLog2Aux : Nat → Nat → Nat
  | 0, _ => 0
  | fuel + 1, n => if 2 ≤ n then floorLog2Aux fuel (n / 2) + 1 else 0

/-- The floor of the binary logarithm of a positive number. -/
def floorLog2 (n : Nat) : Nat :=
  floorLog2Aux n n

/-- The spacing of the doubles around the positive rational `n / d` is `2^-s` for
`s = 52 - ⌊log2 (n / d)⌋`; this is `s`, for `n / d` below `2^53` and in the normal range. -/
def ulpShift (n d : Nat) : Nat :=
  if d ≤ n then 52 - floorLog2 (n / d)
  else 52 + (floorLog2 ((d + n - 1) / n - 1) + 1)

/-- The double nearest to the rational `n / d`, a tie going to the even mantissa. -/
def roundDouble (n d : Nat) : Nat × Nat :=
  if n = 0 then (0, 0)
  else (roundHalfEven (n * 2 ^ ulpShift n d) d, ulpShift n d)

/-- The rational a double stands for. -/
def doubleValue (x : Nat × Nat) : ℚ :=
  (x.1 : ℚ) / 2 ^ x.2

/-- The double `0.25 + x` for a double `x = m / 2^s`: the exact sum is
`(2^s + 4 * m) / (4 * 2^s)`, and the addition rounds it. -/
def addQuarter (x : Nat × Nat) : Nat × Nat :=
  roundDouble (2 ^ x.2 + 4 * x.1) (4 * 2 ^ x.2)

/-! ## `buildRadarUser` (lines 92-116) -/

/-- The identifier `user?.user_id || user?.id`. -/
def rawId (user : RawUser) : Option String :=
  jsOr user.user_id user.id

/-- The function `buildRadarUser`; `none` is the `null` returned for a record without an id.
The distance is the double `0.25 + (Math.abs(hash) % 50) / 100`: the remainder is an exact
integer, the division by 100 rounds, and so does the addition. -/
def buildRadarUser (user : RawUser) : Option RadarUser :=
  match rawId user with
  | none => none
  | some id =>
    if id = "" then none
    else
      let hash := idHash id
      some
        { id := id
          name := ((jsOr (jsOr user.display_name user.name) (some "User")).getD "User")
          vibe := ((jsOr user.vibe (some "nearby")).getD "nearby")
          gender := user.gender
          profilePhoto := user.profile_photo_key
          socials := user.socials.getD []
          angle := (Int.tmod hash 360).natAbs
          distance := doubleValue (addQuarter (roundDouble (hash.natAbs % 50) 100)) }

/-! ## Socket handlers and poll completion -/

/-- The stale-room test
`payload?.place_id && currentPlaceId && payload.place_id !== currentPlaceId`. -/
def roomMismatch (payloadPlace currentPlace : Option String) : Bool :=
  truthy payloadPlace && truthy currentPlace && decide (payloadPlace ≠ currentPlace)

/-- The filter predicate of `handleNearbyUsers`, line 604. -/
def notLocal (currentUserId : Option String) (u : RawUser) : Bool :=
  if truthy currentUserId then decide (rawId u ≠ currentUserId) else true

/-- The handler `handleNearbyUsers` (lines 593-610). -/
def handleNearbyUsers (s : RadarState) (payload : NearbyUsersPayload) : RadarState :=
  if !s.isOpen then s
  else if roomMismatch payload.place_id s.placeId then s
  else
    { s with
      users := ((payload.users.getD []).filter (notLocal s.userId)).filterMap buildRadarUser }

/-- The handler `handleLocationUpdate` (lines 615-643). -/
def handleLocationUpdate (s : RadarState) (payload : LocationUpdatePayload) : RadarState :=
  if !s.isOpen then s
  else
    match payload.user with
    | none => s
    | some incoming =>
      if roomMismatch payload.place_id s.placeId then s
      else
        let incomingId := rawId incoming
        if truthy s.userId && decide (incomingId = s.userId) then s
        else if payload.event_type = some "user_left" then
          { s with users := s.users.filter (fun u => decide (some u.id ≠ incomingId)) }
        else if payload.event_type = some "user_entered" then
          match buildRadarUser incoming with
          | none => s
          | some next =>
            { s with users := s.users.filter (fun u => decide (u.id ≠ next.id)) ++ [next] }
        else s

/-- The guard of the listeners effect (lines 578-587).  The effect puts `handleNearbyUsers`
and `handleLocationUpdate` on the socket (lines 651-652) when it holds, and its cleanup
(lines 654-662) takes them off as soon as `authReady`, the token, `isOpen` or `placeId`
changes: the two handlers are subscribed exactly in the states where it holds. -/
def listenersSubscribed (authReady : Bool) (s : RadarState) : Bool :=
  authReady && truthy s.token && s.isOpen && truthy s.placeId && s.hasSocket

/-- A `nearby_users` event arriving on the socket: `handleNearbyUsers` runs if it is
subscribed, and nothing runs otherwise. -/
def nearbyUsersEvent (authReady : Bool) (s : RadarState) (payload : NearbyUsersPayload) :
    RadarState :=
  if listenersSubscribed authReady s then handleNearbyUsers s payload else s

/-- A `location_update` event arriving on the socket: `handleLocationUpdate` runs if it is
subscribed, and nothing runs otherwise. -/
def locationUpdateEvent (authReady : Bool) (s : RadarState) (payload : LocationUpdatePayload) :
    RadarState :=
  if listenersSubscribed authReady s then handleLocationUpdate s payload else s

/-- The filter predicate of `fetchNearbyUsers`, line 925. -/
def pollNotLocal (resolvedUserId : Option String) (user : RawUser) : Bool :=
  if truthy resolvedUserId then decide (user.user_id ≠ resolvedUserId) else true

/-- Completion of `fetchNearbyUsers` (lines 914-937) with the request's outcome; `mounted`
is the flag the effect's cleanup clears. -/
def fetchNearbyUsers (s : RadarState) (mounted : Bool) (r : FetchResult) : RadarState :=
  match r with
  | .data success users =>
    if !mounted || !success then s
    else { s with users := (users.filter (pollNotLocal s.userId)).filterMap buildRadarUser }
  | .failure message =>
    if includes message "401" then
      { s with error := some (.text "Authentication expired. Please log in again.") }
    else s

/-- One update of the nearby-user set, by source. -/
inductive Update where
  | snapshot (payload : NearbyUsersPayload)
  | incremental (payload : LocationUpdatePayload)
  | poll (mounted : Bool) (r : FetchResult)

/-- The state after one update. -/
def applyUpdate (s : RadarState) : Update → RadarState
  | .snapshot payload => handleNearbyUsers s payload
  | .incremental payload => handleLocationUpdate s payload
  | .poll mounted r => fetchNearbyUsers s mounted r

/-- The state after a sequence of updates, in arrival order. -/
def runUpdates (s : RadarState) (us : List Update) : RadarState :=
  us.foldl applyUpdate s

/-- The ids of the nearby-user set. -/
def userIds (s : RadarState) : List String :=
  s.users.map (fun u => u.id)

/-- The id a raw record is entered under: `user_id || id` when that is truthy. -/
def recordId (u : RawUser) : Option String :=
  match rawId u with
  | none => none
  | some id => if id = "" then none else some id

/-- A snapshot or poll payload carries no two identified records with the same id. -/
def distinctIds : Update → Prop
  | .snapshot payload => ((payload.users.getD []).filterMap recordId).Nodup
  | .incremental _ => True
  | .poll _ (.data _ users) => (users.filterMap recordId).Nodup
  | .poll _ (.failure _) => True

/-- The set a snapshot leaves, in the words of the spec: walk the payload in order, skip a
record whose id is the known local user id, skip a record without an id, and place every
other record through `buildRadarUser`. -/
def snapshotSet (localId : Option String) : List RawUser → List RadarUser
  | [] => []
  | u :: rest =>
    if truthy localId && decide (rawId u = localId) then snapshotSet localId rest
    else
      match buildRadarUser u with
      | none => snapshotSet localId rest
      | some r => r :: snapshotSet localId rest

/-! ## Connection status handlers (lines 589-591) -/

/-- The handler `handleConnect`. -/
def handleConnect (s : RadarState) : RadarState :=
  { s with socketConnected := true }

/-- The handler `handleDisconnect`. -/
def handleDisconnect (s : RadarState) : RadarState :=
  { s with socketConnected := false }

/-- The handler `handleConnectedAck`. -/
def handleConnectedAck (s : RadarState) : RadarState :=
  { s with socketConnected := true }

/-! ## The join/leave effect (lines 668-681)

An effect run is described by what its body emits and by what the cleanup it returns will
emit.  React runs an effect after the first render, and after a later render whose
dependency values differ from those of the render it last ran for; before a rerun, and at
unmount, it calls the cleanup the last run returned. -/

/-- Events the radar screen emits on the channel, with their payload fields. -/
inductive ChannelEvent where
  | join_location (token place_id : Option String)
  | get_nearby_users (token : Option String)
  | leave_location (token place_id : Option String)
  | ping
  deriving DecidableEq

/-- One run of an emitting effect. -/
structure EffectRun where
  emitted : List ChannelEvent
  cleanup : Option (List ChannelEvent)

/-- The body of the join/leave effect in state `s`: `tokenRef.current` is `s.token` and
`getSocket()` is non-null when `s.hasSocket`. -/
def joinLeaveEffect (s : RadarState) : EffectRun :=
  if !s.isOpen || !s.hasSocket || !truthy s.token || !truthy s.placeId || !s.socketConnected then
    { emitted := [], cleanup := none }
  else
    { emitted := [.join_location s.token s.placeId, .get_nearby_users s.token]
      cleanup := some [.leave_location s.token s.placeId] }

/-- The dependency array `[placeId, socketConnected, isOpen]`. -/
def joinLeaveDeps (s : RadarState) : Option String × Bool × Bool :=
  (s.placeId, s.socketConnected, s.isOpen)

/-- Channel events of one commit: `prev` is the state the effect last ran for, `next` the
state now rendered.  Unchanged dependencies emit nothing; otherwise the cleanup of the last
run is called and then the body runs for `next`. -/
def joinLeaveTransition (prev next : RadarState) : List ChannelEvent :=
  if joinLeaveDeps next = joinLeaveDeps prev then []
  else (joinLeaveEffect prev).cleanup.getD [] ++ (joinLeaveEffect next).emitted

/-- Is the event a `join_location` for place `p`? -/
def isJoinFor (p : String) : ChannelEvent → Bool
  | .join_location _ place => decide (place = some p)
  | _ => false

/-- Is the event a `leave_location` for place `p`? -/
def isLeaveFor (p : String) : ChannelEvent → Bool
  | .leave_location _ place => decide (place = some p)
  | _ => false

/-! ## The poll fallback effect (lines 909-946) -/

/-- What one run of the fallback effect sets up: the direct call `fetchNearbyUsers()` and
`setInterval(fetchNearbyUsers, intervalMs)`, cleared by the cleanup. -/
structure PollRun where
  fetchNow : Bool
  intervalMs : Nat
  deriving DecidableEq

/-- The body of the fallback effect: `none` when the guard of line 910 returns. -/
def pollEffect (s : RadarState) : Option PollRun :=
  if !s.isOpen || !truthy s.placeId || !s.hasLocation || !truthy s.token || s.socketConnected then
    none
  else some { fetchNow := true, intervalMs := 5000 }

/-- Times, in milliseconds after the effect ran, at which `fetchNearbyUsers` is called when
the cleanup runs at time `cleanupAt`: the direct call at 0 and the interval's firings at
the positive multiples of its period, as long as the interval is not yet cleared. -/
def pollFetchTimes (run : Option PollRun) (cleanupAt : Nat) : List Nat :=
  match run with
  | none => []
  | some r =>
    (if r.fetchNow then [0] else []) ++
      ((List.range (cleanupAt / r.intervalMs + 1)).map (fun k => k * r.intervalMs)).filter
        (fun t => decide (0 < t) && decide (t < cleanupAt))

/-! ## Poll effect dependencies (line 946) -/

/-- The dependency array of the fallback effect,
`[placeId, userLocation, resolvedAccessToken, resolvedUserId, socketConnected, isOpen]`:
the running interval is cleaned up only when one of these values changes. -/
def pollDeps (s : RadarState) :
    Option String × Bool × Option String × Option String × Bool × Bool :=
  (s.placeId, s.hasLocation, s.token, s.userId, s.socketConnected, s.isOpen)

/-- The test `error?.type === 'auth'` that selects the auth error view (line 1276). -/
def isAuthError : Option RadarError → Bool
  | some (.object type _ _) => decide (type = "auth")
  | _ => false

/-! ## Incoming request card (lines 369-469) -/

/-- Payload of `friend_request_received`, kept in `incomingRequest`. -/
structure IncomingRequest where
  requester : Option RawUser := none
  user_id : Option String := none
  id : Option String := none
  deriving DecidableEq

/-- The part of the radar screen's state behind the incoming request card. -/
structure RequestCardState where
  incomingRequest : Option IncomingRequest := none
  incomingRequestId : Option String := none
  requestCardVisible : Bool := false
  requestActionLoading : Bool := false
  pendingRequestsCount : Nat := 0
  token : Option String := none
  passNavigations : List String := []
  deriving DecidableEq

/-- REST calls of the request card. -/
inductive RestCall where
  | pendingList
  | accept (requestId : String)
  | reject (requestId : String)
  deriving DecidableEq

/-- One entry of the `friend_requests/pending` response. -/
structure PendingEntry where
  requester_user_id : Option String := none
  request_id : Option String := none

/-- Outcome of the `friend_requests/pending` request. -/
inductive PendingResult where
  | threw
  | data (requests : Option (List PendingEntry))

/-- The function `resolveIncomingRequestId` (lines 369-386): the calls it issues and the
id it returns. -/
def resolveIncomingRequestId (token requesterId : Option String) (r : PendingResult) :
    List RestCall × Option String :=
  if !truthy requesterId || !truthy token then ([], none)
  else
    match r with
    | .threw => ([.pendingList], none)
    | .data requests =>
      match (requests.getD []).find? (fun req => decide (req.requester_user_id = requesterId)) with
      | none => ([.pendingList], none)
      | some found =>
        ([.pendingList], if truthy found.request_id then found.request_id else none)

/-- The function `resetIncomingRequest` (lines 388-393). -/
def resetIncomingRequest (s : RequestCardState) : RequestCardState :=
  { s with
    requestActionLoading := false
    requestCardVisible := false
    incomingRequest := none
    incomingRequestId := none }

/-- The guard `!incomingRequest || !resolvedAccessToken || requestActionLoading` that both
actions start with. -/
def actionBlocked (s : RequestCardState) : Bool :=
  s.incomingRequest.isNone || !truthy s.token || s.requestActionLoading

/-- The expression `incomingRequest?.requester?.user_id || incomingRequest?.user_id`. -/
def requesterIdOf (req : Option IncomingRequest) : Option String :=
  jsOr ((req.bind (fun r => r.requester)).bind (fun u => u.user_id))
    (req.bind (fun r => r.user_id))

/-- State of an action at its first await: `setRequestActionLoading(true)` has run and,
when `incomingRequestId` is not set, the lookup is in flight. -/
def actionAwaitingLookup (s : RequestCardState) : RequestCardState :=
  { s with requestActionLoading := true }

/-- The request id an action works with, the calls made to obtain it, and the state once
it is known: `incomingRequestId` when set, else the lookup's result, stored by
`setIncomingRequestId`. -/
def actionRequestId (s : RequestCardState) (lookup : PendingResult) :
    List RestCall × Option String × RequestCardState :=
  if truthy s.incomingRequestId then ([], s.incomingRequestId, actionAwaitingLookup s)
  else
    let r := resolveIncomingRequestId s.token (requesterIdOf s.incomingRequest) lookup
    (r.1, r.2, { actionAwaitingLookup s with incomingRequestId := r.2 })

/-- The handler `handleRejectIncoming` (lines 441-469), run from state `s` with the
outcomes of the lookup and of the reject call (`restOk = false`: the call threw). -/
def handleRejectIncoming (s : RequestCardState) (lookup : PendingResult) (restOk : Bool) :
    RequestCardState × List RestCall :=
  if actionBlocked s then (s, [])
  else
    match actionRequestId s lookup with
    | (calls, some requestId, s2) =>
      if requestId = "" then ({ s2 with requestActionLoading := false }, calls)
      else if restOk then
        (resetIncomingRequest { s2 with pendingRequestsCount := max (s2.pendingRequestsCount - 1) 0 },
          calls ++ [.reject requestId])
      else ({ s2 with requestActionLoading := false }, calls ++ [.reject requestId])
    | (calls, none, s2) => ({ s2 with requestActionLoading := false }, calls)

/-- The id `requester?.user_id || requester?.id` with
`requester = incomingRequest?.requester || incomingRequest` (lines 421-422). -/
def acceptedRequesterId (req : Option IncomingRequest) : Option String :=
  match req with
  | none => none
  | some r =>
    match r.requester with
    | some u => jsOr u.user_id u.id
    | none => jsOr r.user_id r.id

/-- The handler `handleAcceptIncoming` (lines 395-439), run from state `s` with the
outcomes of the lookup and of the accept call. -/
def handleAcceptIncoming (s : RequestCardState) (lookup : PendingResult) (restOk : Bool) :
    RequestCardState × List RestCall :=
  if actionBlocked s then (s, [])
  else
    match actionRequestId s lookup with
    | (calls, some requestId, s2) =>
      if requestId = "" then ({ s2 with requestActionLoading := false }, calls)
      else if restOk then
        let s3 := resetIncomingRequest
          { s2 with pendingRequestsCount := max (s2.pendingRequestsCount - 1) 0 }
        let s4 :=
          match acceptedRequesterId s.incomingRequest with
          | some rid =>
            if rid = "" then s3 else { s3 with passNavigations := s3.passNavigations ++ [rid] }
          | none => s3
        (s4, calls ++ [.accept requestId])
      else ({ s2 with requestActionLoading := false }, calls ++ [.accept requestId])
    | (calls, none, s2) => ({ s2 with requestActionLoading := false }, calls)

/-- States in which other handlers can run while an action started from `s` is in
progress: at the await of the lookup and at the await of the REST call. -/
def actionInProgress (s : RequestCardState) (lookup : PendingResult) :
    List RequestCardState :=
  if actionBlocked s then []
  else [actionAwaitingLookup s, (actionRequestId s lookup).2.2]

/-! ## The request id resolution effect (lines 852-867) -/

/-- The guard of the resolution effect: it runs when the card is visible with a request,
no request id is stored and a token is present. -/
def resolutionEffectRuns (s : RequestCardState) : Bool :=
  s.requestCardVisible && s.incomingRequest.isSome && !truthy s.incomingRequestId &&
    truthy s.token

/-- The dependency array
`[requestCardVisible, incomingRequest, incomingRequestId, resolvedAccessToken]`. -/
def resolutionDeps (s : RequestCardState) :
    Bool × Option IncomingRequest × Option String × Option String :=
  (s.requestCardVisible, s.incomingRequest, s.incomingRequestId, s.token)

/-- The calls one run of the resolution effect starts in state `s`. -/
def resolutionEffectCalls (s : RequestCardState) (lookup : PendingResult) : List RestCall :=
  if resolutionEffectRuns s then
    (resolveIncomingRequestId s.token (requesterIdOf s.incomingRequest) lookup).1
  else []

/-- The state once the run started in `s` has settled, the effect still being mounted:
`setIncomingRequestId(id)` with the id the lookup gave. -/
def resolutionEffectDone (s : RequestCardState) (lookup : PendingResult) : RequestCardState :=
  if resolutionEffectRuns s then
    { s with
      incomingRequestId :=
        (resolveIncomingRequestId s.token (requesterIdOf s.incomingRequest) lookup).2 }
  else s

/-- The calls the resolution effect starts at the commit of `next`, `prev` being the state
it last ran for: none when no dependency changed. -/
def resolutionTransition (prev next : RequestCardState) (lookup : PendingResult) :
    List RestCall :=
  if resolutionDeps next = resolutionDeps prev then [] else resolutionEffectCalls next lookup

/-! ## Closing the radar (lines 1168-1200) -/

/-- REST calls of the radar's slider. -/
inductive RadarCall where
  | removeUserLocation
  deriving DecidableEq

/-- The state clearing of `closeRadar` (lines 1185-1189). -/
def clearRadarState (s : RadarState) : RadarState :=
  { s with isOpen := false, users := [], hasLocation := false, placeId := none }

/-- The function `closeRadar` (lines 1168-1200), with the outcome of the
`remove_user_location` request, issued when a token is present: it succeeded, or it threw
and the catch block logged the error. -/
def closeRadar (s : RadarState) (requestOk : Bool) : RadarState × List RadarCall :=
  let calls := if truthy s.token then [RadarCall.removeUserLocation] else []
  match requestOk with
  | true => (clearRadarState s, calls)
  | false => (clearRadarState s, calls)

/-- Is the update a push event (snapshot or incremental)? -/
def isPush : Update → Bool
  | .snapshot _ => true
  | .incremental _ => true
  | .poll _ _ => false

/-- The sum over `i` of `code(id[i]) * 31^(n-1-i)`, `n` being the number of codes. -/
def weightedSum : List Nat → Nat
  | [] => 0
  | c :: cs => c * 31 ^ cs.length + weightedSum cs

end RadarScreen

/-! # The requests list (`src/screens/FriendRequestsScreen.js`) -/

namespace FriendRequestsScreen

/-- One pending request of the list. -/
structure FriendRequest where
  request_id : String
  requester_display_name : Option String := none
  deriving DecidableEq

/-- The list and the set of request ids being processed. -/
structure RequestsState where
  requests : List FriendRequest := []
  processingIds : List String := []
  deriving DecidableEq

/-- Outcome of an accept or reject `fetch`: it threw, or a response arrived with its `ok`
flag. -/
inductive RestResult where
  | threw
  | response (ok : Bool)

/-- The update `new Set(prev).add(id)`. -/
def addProcessing (ids : List String) (id : String) : List String :=
  if id ∈ ids then ids else ids ++ [id]

/-- The update that deletes `id` from a copy of the set. -/
def deleteProcessing (ids : List String) (id : String) : List String :=
  ids.filter (fun x => decide (x ≠ id))

/-- The try/catch/finally block shared by `handleAccept` (lines 218-263) and the Reject
button of `handleReject` (lines 283-318), entered with the id in the processing set. -/
def settleRequest (s : RequestsState) (request : FriendRequest) (r : RestResult) :
    RequestsState :=
  let s1 := { s with processingIds := addProcessing s.processingIds request.request_id }
  let s2 :=
    match r with
    | .response true =>
      { s1 with
        requests := s1.requests.filter (fun x => decide (x.request_id ≠ request.request_id)) }
    | _ => s1
  { s2 with processingIds := deleteProcessing s2.processingIds request.request_id }

/-- The handler `handleAccept` (lines 212-265). -/
def handleAccept (s : RequestsState) (request : FriendRequest) (r : RestResult) :
    RequestsState :=
  if request.request_id ∈ s.processingIds then s else settleRequest s request r

/-- The handler `handleReject` (lines 267-325) when the user confirms with Reject. -/
def handleReject (s : RequestsState) (request : FriendRequest) (r : RestResult) :
    RequestsState :=
  if request.request_id ∈ s.processingIds then s else settleRequest s request r

end FriendRequestsScreen

/-! # The pass session (`src/screens/PassScreen.js`)

The state of the screen is an explicit record.  Active `setInterval` timers are part of it,
each with the variable `t` its callback closes over, so that cancelling and firing are
explicit.  An `async` handler is a function of the state it is invoked in and of the
outcomes of the requests it awaits; it returns the final state and the requests issued. -/

namespace PassScreen

open RadarScreen (truthy jsOr includes)

/-- The constant `UNLOCK_DURATION`, in seconds (line 19). -/
def UNLOCK_DURATION : Int := 60

/-- A socials mapping, as key and value pairs. -/
abbrev Socials := List (String × String)

/-- The route parameter `user`. -/
structure TargetUser where
  id : Option String := none
  name : Option String := none
  socials : Option Socials := none
  socials_locked : Bool := false

/-- A record of the `view_nearby_people` response, as the pass screen reads it. -/
structure NearbyRecord where
  user_id : Option String := none
  socials : Option Socials := none
  socials_locked : Bool := false

/-- Network requests of the pass screen. -/
inductive Request where
  | viewNearbyPeople
  | sendFriendRequest (target_user_id : Option String)
  deriving DecidableEq

/-- Navigation calls of the pass screen. -/
inductive NavCall where
  | replaceRadar
  | goBack
  deriving DecidableEq

/-- An active interval: its handle and the variable `t` of `startTimer` it closes over. -/
structure Interval where
  id : Nat
  t : Int
  deriving DecidableEq

/-- The React state and refs of the pass screen, with the active timers and the log of
navigation calls. -/
structure PassState where
  waiting : Bool := false
  unlocked : Bool := false
  seconds : Int := 60
  accessToken : Option String := none
  error : Option String := none
  userSocials : Socials := []
  intervals : List Interval := []
  timerRef : Option Nat := none
  nextTimerId : Nat := 1
  navigation : List NavCall := []
  deriving DecidableEq

/-- Outcome of a `view_nearby_people` fetch in the pass screen: it threw (with
`err.message`), or a response arrived with its `ok` flag and the `users` of its body. -/
inductive CheckResult where
  | threw (message : Option String)
  | response (ok : Bool) (users : Option (List NearbyRecord))

/-- Outcome of the `friend_requests/send` fetch: it threw, or a response arrived with its
`ok` flag and the `error` field of its body. -/
inductive SendResult where
  | threw (message : Option String)
  | response (ok : Bool) (error : Option String)

/-- The call `clearInterval(handle)`. -/
def clearInterval (s : PassState) (handle : Option Nat) : PassState :=
  match handle with
  | none => s
  | some i => { s with intervals := s.intervals.filter (fun iv => decide (iv.id ≠ i)) }

/-- The function `startTimer` (lines 435-448): the interval referenced by `timerRef` is
cleared and a new one, with `t = UNLOCK_DURATION`, is scheduled and stored in `timerRef`. -/
def startTimer (s : PassState) : PassState :=
  let s1 := if s.timerRef.isSome then clearInterval s s.timerRef else s
  { s1 with
    intervals := s1.intervals ++ [{ id := s1.nextTimerId, t := UNLOCK_DURATION }]
    timerRef := some s1.nextTimerId
    nextTimerId := s1.nextTimerId + 1 }

/-- One firing of the interval `i` (lines 440-447): nothing when it has been cleared. -/
def timerCallback (s : PassState) (i : Nat) : PassState :=
  match s.intervals.find? (fun iv => decide (iv.id = i)) with
  | none => s
  | some iv =>
    let t := iv.t - 1
    let s1 :=
      { s with
        intervals := s.intervals.map (fun j => if j.id = i then { j with t := t } else j)
        seconds := t }
    if t ≤ 0 then
      { clearInterval s1 s1.timerRef with navigation := s1.navigation ++ [.replaceRadar] }
    else s1

/-- One second passes: every interval active at that moment fires once. -/
def tick (s : PassState) : PassState :=
  (s.intervals.map (fun iv => iv.id)).foldl timerCallback s

/-- The state after `k` seconds. -/
def ticks : Nat → PassState → PassState
  | 0, s => s
  | k + 1, s => ticks k (tick s)

/-- Every active interval is the one `timerRef` references. -/
def timerOwned (s : PassState) : Prop :=
  ∀ iv ∈ s.intervals, some iv.id = s.timerRef

/-- The function `unlock` (lines 404-432). -/
def unlock (s : PassState) : PassState :=
  startTimer { s with unlocked := true, waiting := false, error := none }

/-- The catch block of `onPass` (lines 377-400). -/
def passFailed (s : PassState) (message : Option String) : PassState :=
  { s with
    error := some ((jsOr message (some "Failed to send pass")).getD "Failed to send pass")
    waiting := false }

/-- The pre-check of `onPass` (lines 296-299): the socials of the target's record when
they are present, not locked and not empty. -/
def alreadyFriends (user : TargetUser) (users : Option (List NearbyRecord)) :
    Option Socials :=
  match (users.getD []).find? (fun u => decide (u.user_id = user.id)) with
  | none => none
  | some targetUser =>
    match targetUser.socials with
    | none => none
    | some so => if !targetUser.socials_locked && decide (0 < so.length) then some so else none

/-- The synchronous start of `onPass` (lines 256-264): `none` when one of the two guards
returns, else the state after `setWaiting(true)` and `setError(null)`. -/
def onPassBegin (user : TargetUser) (s : PassState) : Option PassState :=
  if !truthy s.accessToken || !truthy user.id then none
  else if s.waiting then none
  else some { s with waiting := true, error := none }

/-- The rest of `onPass` after its first await (lines 294-400), applied to the state
current at that time, with the outcomes of the pre-check and of the send request; the
second is consulted only if the send is issued.  The requests are those of the whole
invocation. -/
def onPassContinue (user : TargetUser) (s1 : PassState) (check : CheckResult)
    (send : SendResult) : PassState × List Request :=
  match check with
  | .threw message => (passFailed s1 message, [.viewNearbyPeople])
  | .response ok users =>
    match (if ok then alreadyFriends user users else none) with
    | some so => (unlock { s1 with userSocials := so }, [.viewNearbyPeople])
    | none =>
      match send with
      | .threw message =>
        (passFailed s1 message, [.viewNearbyPeople, .sendFriendRequest user.id])
      | .response sendOk error =>
        if sendOk then (s1, [.viewNearbyPeople, .sendFriendRequest user.id])
        else
          let errorMsg := (jsOr error (some "Failed to send pass")).getD "Failed to send pass"
          if includes errorMsg "already friends" then
            (unlock s1, [.viewNearbyPeople, .sendFriendRequest user.id])
          else if includes errorMsg "already sent" then
            (s1, [.viewNearbyPeople, .sendFriendRequest user.id])
          else
            (passFailed s1 (some errorMsg), [.viewNearbyPeople, .sendFriendRequest user.id])

/-- The handler `onPass` (lines 255-401), invoked in state `s`. -/
def onPass (user : TargetUser) (s : PassState) (check : CheckResult) (send : SendResult) :
    PassState × List Request :=
  match onPassBegin user s with
  | none => (s, [])
  | some s1 => onPassContinue user s1 check send

/-- The number of `friend_requests/send` calls among the requests. -/
def sendCount (reqs : List Request) : Nat :=
  reqs.countP (fun r => match r with | .sendFriendRequest _ => true | _ => false)

/-- Two invocations of `onPass`: the second is made while the first is in flight, in the
state the first has left at its first await, and runs to its end; the first then continues
on the state the second has left.  The result is the final state and all requests. -/
def onPassTwice (user : TargetUser) (s : PassState) (check : CheckResult) (send : SendResult)
    (check2 : CheckResult) (send2 : SendResult) : PassState × List Request :=
  match onPassBegin user s with
  | none =>
    let second := onPass user s check2 send2
    (second.1, second.2)
  | some s1 =>
    let second := onPass user s1 check2 send2
    let first := onPassContinue user second.1 check send
    (first.1, first.2 ++ second.2)

/-- One entry of the list `socials` (lines 463-470). -/
structure SocialEntry where
  key : String
  label : String
  value : Option String
  deriving DecidableEq

/-- The memo `socials` (lines 463-470). -/
def socials (s : PassState) : List SocialEntry :=
  let socialsData : Socials := if s.unlocked then s.userSocials else []
  [ { key := "instagram", label := "Instagram", value := socialsData.lookup "instagram" },
    { key := "snapchat", label := "Snapchat", value := socialsData.lookup "snapchat" },
    { key := "discord", label := "Discord", value := socialsData.lookup "discord" } ]

/-- The `user` object of a `friend_request_accepted` payload. -/
structure AcceptedUser where
  user_id : Option String := none
  socials : Option Socials := none

/-- Payload of `friend_request_accepted`. -/
structure AcceptedPayload where
  user : Option AcceptedUser := none

/-- The socials the refetch of lines 220-235 stores, if any. -/
def refetchedSocials (user : TargetUser) (refetch : CheckResult) : Option Socials :=
  match refetch with
  | .threw _ => none
  | .response ok users =>
    if ok then
      ((users.getD []).find? (fun u => decide (u.user_id = user.id))).bind (fun u => u.socials)
    else none

/-- The handler `handleFriendRequestAccepted` (lines 206-243), with the outcome of the
refetch it awaits when the payload carries no socials. -/
def handleFriendRequestAccepted (user : TargetUser) (s : PassState) (payload : AcceptedPayload)
    (refetch : CheckResult) : PassState × List Request :=
  if payload.user.bind (fun u => u.user_id) = user.id then
    match payload.user.bind (fun u => u.socials) with
    | some so => (unlock { s with userSocials := so }, [])
    | none =>
      match refetchedSocials user refetch with
      | some so => (unlock { s with userSocials := so }, [.viewNearbyPeople])
      | none => (unlock s, [.viewNearbyPeople])
  else (s, [])

/-- What `handleSocialPress` does, in order. -/
inductive SocialAction where
  | alertNotAvailable (label : String)
  | haptic
  | alertDiscord (value : String)
  | openUrl (url : String)
  deriving DecidableEq

/-- The call `value.replace('@', '')`: the first `@` is removed. -/
def removeFirstAt : List Char → List Char
  | [] => []
  | c :: cs => if c = '@' then cs else c :: removeFirstAt cs

/-- The handler `handleSocialPress` (lines 486-519); `openUrl` stands for the
`Linking.canOpenURL(url)` chain. -/
def handleSocialPress (s : PassState) (social : SocialEntry) : List SocialAction :=
  if !s.unlocked then []
  else
    match social.value with
    | none => [.alertNotAvailable social.label]
    | some value =>
      if value = "" || value = "Not set" then [.alertNotAvailable social.label]
      else if social.key = "instagram" then
        [.haptic, .openUrl ("https://instagram.com/" ++ String.mk (removeFirstAt value.toList))]
      else if social.key = "snapchat" then
        [.haptic, .openUrl ("https://snapchat.com/add/" ++ value)]
      else if social.key = "discord" then [.haptic, .alertDiscord value]
      else [.haptic]

/-- A state of the pass screen the handlers can reach: no timer at first, then any number
of `unlock()` calls, one-second ticks and state updates that leave the timers alone. -/
inductive Reachable : PassState → Prop where
  | init (s : PassState) (h : s.intervals = []) (hr : s.timerRef = none) : Reachable s
  | unlock (s : PassState) (h : Reachable s) : Reachable (unlock s)
  | tick (s : PassState) (h : Reachable s) : Reachable (tick s)
  | update (s s' : PassState) (h : Reachable s) (hi : s'.intervals = s.intervals)
      (hr : s'.timerRef = s.timerRef) : Reachable s'

end PassScreen

/-! # The socket module (`src/socket.js`) -/

namespace Socket

open RadarScreen (truthy)

/-- The names `socket.js` exports (lines 11, 54 and 61). -/
def exportedNames : List String :=
  ["initSocket", "getSocket", "disconnectSocket"]

/-- Is a name imported from `socket.js` bound to a function?  A name the module does not
export is imported as `undefined`, and calling it throws a `TypeError`. -/
def exported (name : String) : Bool :=
  exportedNames.contains name

/-- The module variable `socket` and the count of connections `io(...)` has created;
a connection is named by its number. -/
structure SocketModule where
  socket : Option Nat := none
  created : Nat := 0
  deriving DecidableEq

/-- How a call of `initSocket` ends. -/
inductive InitResult where
  | returned (socket : Nat)
  | threw
  deriving DecidableEq

/-- The part of `initSocket` after `await AsyncStorage.getItem("accessToken")` (lines
18-48), with the token read: it throws without a token, and otherwise assigns a new
connection to `socket` without looking at `socket` again. -/
def initSocketResume (m : SocketModule) (token : Option String) : SocketModule × InitResult :=
  if !truthy token then (m, .threw)
  else ({ socket := some m.created, created := m.created + 1 }, .returned m.created)

/-- The function `initSocket` (lines 11-49) when nothing else runs during its `await`: the
guard of lines 12-15, then the part after the `await` with the stored token. -/
def initSocket (m : SocketModule) (token : Option String) : SocketModule × InitResult :=
  match m.socket with
  | some existing => (m, .returned existing)
  | none => initSocketResume m token

/-- The function `getSocket` (lines 54-56). -/
def getSocket (m : SocketModule) : Option Nat :=
  m.socket

/-- The function `disconnectSocket` (lines 61-68). -/
def disconnectSocket (m : SocketModule) : SocketModule :=
  match m.socket with
  | some _ => { m with socket := none }
  | none => m

/-- A sequence of `initSocket` calls, one after the other, each with the stored token it
reads: the module after the last call. -/
def initSocketCalls (m : SocketModule) (tokens : List (Option String)) : SocketModule :=
  tokens.foldl (fun acc token => (initSocket acc token).1) m

/-- A step of the module when calls of `initSocket` may overlap: a call starts and runs up
to its `await` (lines 12-17), or the oldest waiting call goes on after its `await` with the
token it read. -/
inductive InitStep where
  | start
  | resume (token : Option String)
  deriving DecidableEq

/-- The module together with the number of `initSocket` calls waiting at line 17. -/
structure InitRun where
  module : SocketModule := {}
  waiting : Nat := 0
  deriving DecidableEq

/-- One step: a call that starts with a socket present returns it at once (line 14), one
that starts without a socket waits; a waiting call that goes on runs lines 18-48. -/
def initStep (r : InitRun) : InitStep → InitRun
  | .start =>
    match r.module.socket with
    | some _ => r
    | none => { r with waiting := r.waiting + 1 }
  | .resume token =>
    if r.waiting = 0 then r
    else { module := (initSocketResume r.module token).1, waiting := r.waiting - 1 }

/-- The module after a sequence of steps. -/
def initSteps (r : InitRun) (steps : List InitStep) : InitRun :=
  steps.foldl initStep r

/-- The steps of calls made one after the other: each call starts and goes on before the
next one starts. -/
def oneAfterTheOther (tokens : List (Option String)) : List InitStep :=
  tokens.flatMap (fun token => [InitStep.start, InitStep.resume token])

end Socket

/-! # The notification router (`src/services/notificationService.js`)

Line 3 imports `connectSocket` from `socket.js`, which exports no such name: the call of
line 38 throws, inside the `try` of `initializeNotifications`.  A handler is named by a
number; what a listener does is the list of its effects, in order. -/

namespace NotificationService

open RadarScreen (truthy jsOr)

/-- The object `notificationHandlers`. -/
structure Handlers where
  onFriendRequestReceived : Option Nat := none
  onFriendRequestAccepted : Option Nat := none
  onFriendshipExpired : Option Nat := none
  deriving DecidableEq

/-- The argument of `setNotificationHandlers`: for each key, absent (`none`), or present
with `null` or a handler. -/
structure HandlersArg where
  onFriendRequestReceived : Option (Option Nat) := none
  onFriendRequestAccepted : Option (Option Nat) := none
  onFriendshipExpired : Option (Option Nat) := none
  deriving DecidableEq

/-- The module state, with the events this module has subscribed to on the socket, in the
order of the `socket.on` calls. -/
structure NotificationState where
  notificationHandlers : Handlers := {}
  isInitialized : Bool := false
  currentAccessToken : Option String := none
  hasSocket : Bool := false
  connectionErrorLogged : Bool := false
  subscriptions : List String := []
  deriving DecidableEq

/-- The events one initialisation subscribes to (lines 41-167). -/
def subscribedEvents : List String :=
  ["connect", "disconnect", "connect_error", "friend_request_received",
    "friend_request_accepted", "friendship_expired"]

/-- The call `connectSocket(API_CONFIG.BASE_URL)` of line 38 throws when the name imported
in line 3 is not bound to a function. -/
def connectSocketThrows : Bool :=
  !Socket.exported "connectSocket"

/-- The function `initializeNotifications` (lines 26-173).  When the call of line 38 throws,
the catch block (lines 170-172) logs a warning and nothing of lines 39-169 runs; otherwise
the socket is kept and the six listeners are put on it. -/
def initializeNotifications (s : NotificationState) (accessToken : Option String) :
    NotificationState :=
  let s1 := { s with currentAccessToken := jsOr accessToken s.currentAccessToken }
  if s1.isInitialized then s1
  else if !truthy accessToken then s1
  else if connectSocketThrows then s1
  else { s1 with hasSocket := true, subscriptions := s1.subscriptions ++ subscribedEvents }

/-- Calls made on the channel by the notification module. -/
inductive SocketCall where
  | connectSocket
  | on (event : String)
  | off (event : String)
  deriving DecidableEq

/-- The channel calls one invocation of `initializeNotifications` makes or attempts. -/
def initializeNotificationsCalls (s : NotificationState) (accessToken : Option String) :
    List SocketCall :=
  if s.isInitialized then []
  else if !truthy accessToken then []
  else if connectSocketThrows then [SocketCall.connectSocket]
  else SocketCall.connectSocket :: subscribedEvents.map SocketCall.on

/-- The channel calls `cleanupNotifications` makes. -/
def cleanupNotificationsCalls (s : NotificationState) : List SocketCall :=
  if s.hasSocket then
    [.off "friend_request_received", .off "friend_request_accepted", .off "friendship_expired"]
  else []

/-- The listener of the socket's `connect` event (lines 41-45). -/
def onConnect (s : NotificationState) : NotificationState :=
  { s with isInitialized := true, connectionErrorLogged := false }

/-- The listener of the socket's `disconnect` event (lines 47-50). -/
def onDisconnect (s : NotificationState) : NotificationState :=
  { s with isInitialized := false }

/-- The spread `{ ...notificationHandlers, ...handlers }` on one key. -/
def mergeKey (current : Option Nat) (given : Option (Option Nat)) : Option Nat :=
  match given with
  | none => current
  | some value => value

/-- The function `setNotificationHandlers` (lines 178-180). -/
def setNotificationHandlers (s : NotificationState) (handlers : HandlersArg) :
    NotificationState :=
  { s with
    notificationHandlers :=
      { onFriendRequestReceived :=
          mergeKey s.notificationHandlers.onFriendRequestReceived handlers.onFriendRequestReceived
        onFriendRequestAccepted :=
          mergeKey s.notificationHandlers.onFriendRequestAccepted handlers.onFriendRequestAccepted
        onFriendshipExpired :=
          mergeKey s.notificationHandlers.onFriendshipExpired handlers.onFriendshipExpired } }

/-- The function `clearNotificationHandlers` (lines 185-191). -/
def clearNotificationHandlers (s : NotificationState) : NotificationState :=
  { s with notificationHandlers := {} }

/-- The function `cleanupNotifications` (lines 196-206). -/
def cleanupNotifications (s : NotificationState) : NotificationState :=
  let subs :=
    if s.hasSocket then
      s.subscriptions.filter (fun e =>
        decide (e ≠ "friend_request_received") && decide (e ≠ "friend_request_accepted") &&
          decide (e ≠ "friendship_expired"))
    else s.subscriptions
  clearNotificationHandlers
    { s with subscriptions := subs, isInitialized := false, hasSocket := false,
             currentAccessToken := none }

/-- The events of the router. -/
inductive RouterEvent where
  | friend_request_received
  | friend_request_accepted
  | friendship_expired
  deriving DecidableEq

/-- What a listener does. -/
inductive RouterEffect where
  | haptic
  | invoke (handler : Nat) (event : RouterEvent)
  | pendingLookup
  | alert (title : String)
  deriving DecidableEq

/-- The payload fields the `friend_request_received` listener reads. -/
structure ReceivedPayload where
  requester_user_id : Option String := none

/-- The listener of `friend_request_received` (lines 65-120), up to the alert. -/
def onReceived (s : NotificationState) (payload : ReceivedPayload) : List RouterEffect :=
  match s.notificationHandlers.onFriendRequestReceived with
  | some handler => [.haptic, .invoke handler .friend_request_received]
  | none =>
    if truthy s.currentAccessToken && truthy payload.requester_user_id then
      [.haptic, .pendingLookup, .alert "✨ New Pass!"]
    else [.haptic, .alert "✨ New Pass!"]

/-- The listener of `friend_request_accepted` (lines 123-145). -/
def onAccepted (s : NotificationState) : List RouterEffect :=
  [.haptic, .alert "🎉 Pass Accepted!"] ++
    (match s.notificationHandlers.onFriendRequestAccepted with
     | some handler => [.invoke handler .friend_request_accepted]
     | none => [])

/-- The listener of `friendship_expired` (lines 148-167). -/
def onExpired (s : NotificationState) : List RouterEffect :=
  [.haptic, .alert "⏰ Connection Expired"] ++
    (match s.notificationHandlers.onFriendshipExpired with
     | some handler => [.invoke handler .friendship_expired]
     | none => [])

/-- The listener the router runs for an event. -/
def dispatch (s : NotificationState) (event : RouterEvent) (payload : ReceivedPayload) :
    List RouterEffect :=
  match event with
  | .friend_request_received => onReceived s payload
  | .friend_request_accepted => onAccepted s
  | .friendship_expired => onExpired s

/-- The handler registered for an event. -/
def registered (s : NotificationState) : RouterEvent → Option Nat
  | .friend_request_received => s.notificationHandlers.onFriendRequestReceived
  | .friend_request_accepted => s.notificationHandlers.onFriendRequestAccepted
  | .friendship_expired => s.notificationHandlers.onFriendshipExpired

/-- The key of an event in the argument of `setNotificationHandlers`. -/
def givenFor (handlers : HandlersArg) : RouterEvent → Option (Option Nat)
  | .friend_request_received => handlers.onFriendRequestReceived
  | .friend_request_accepted => handlers.onFriendRequestAccepted
  | .friendship_expired => handlers.onFriendshipExpired

/-- Is the effect a default alert? -/
def isAlert : RouterEffect → Bool
  | .alert _ => true
  | _ => false

/-- The name of a router event on the socket. -/
def eventName : RouterEvent → String
  | .friend_request_received => "friend_request_received"
  | .friend_request_accepted => "friend_request_accepted"
  | .friendship_expired => "friendship_expired"

/-- A router event arriving on the socket: its listener runs if the module has subscribed
to the event, and nothing happens otherwise. -/
def deliver (s : NotificationState) (event : RouterEvent) (payload : ReceivedPayload) :
    List RouterEffect :=
  if s.subscriptions.contains (eventName event) then dispatch s event payload else []

/-- What can happen to the module: a call of one of its exported functions, or the socket
connecting or disconnecting. -/
inductive ModuleAction where
  | callInitializeNotifications (accessToken : Option String)
  | callSetNotificationHandlers (handlers : HandlersArg)
  | callClearNotificationHandlers
  | callCleanupNotifications
  | socketConnect
  | socketDisconnect

/-- The module after one action; the `connect` and `disconnect` listeners run only if the
module has put them on the socket. -/
def act (s : NotificationState) : ModuleAction → NotificationState
  | .callInitializeNotifications accessToken => initializeNotifications s accessToken
  | .callSetNotificationHandlers handlers => setNotificationHandlers s handlers
  | .callClearNotificationHandlers => clearNotificationHandlers s
  | .callCleanupNotifications => cleanupNotifications s
  | .socketConnect => if s.subscriptions.contains "connect" then onConnect s else s
  | .socketDisconnect => if s.subscriptions.contains "disconnect" then onDisconnect s else s

/-- The module after a sequence of actions. -/
def runActions (s : NotificationState) (actions : List ModuleAction) : NotificationState :=
  actions.foldl act s

end NotificationService

namespace RadarScreen

/-! ## Lemmas on `buildRadarUser` -/

theorem buildRadarUser_map_id (u : RawUser) :
    (buildRadarUser u).map (fun r => r.id) = recordId u := by
  unfold buildRadarUser recordId
  cases h : rawId u with
  | none => simp
  | some id =>
    by_cases hid : id = ""
    · simp [hid]
    · simp [hid]

theorem buildRadarUser_rawId {u : RawUser} {r : RadarUser} (h : buildRadarUser u = some r) :
    rawId u = some r.id ∧ r.id ≠ "" := by
  unfold buildRadarUser at h
  cases hr : rawId u with
  | none => simp [hr] at h
  | some id =>
    by_cases hid : id = ""
    · simp [hr, hid] at h
    · simp [hr, hid] at h
      subst h
      exact ⟨rfl, hid⟩

theorem map_id_filterMap_build (l : List RawUser) :
    (l.filterMap buildRadarUser).map (fun r => r.id) = l.filterMap recordId := by
  induction l with
  | nil => rfl
  | cons u t ih =>
    have hu := buildRadarUser_map_id u
    cases hb : buildRadarUser u with
    | none =>
      rw [hb] at hu
      simp only [Option.map_none'] at hu
      rw [List.filterMap_cons_none hb, List.filterMap_cons_none hu.symm, ih]
    | some r =>
      rw [hb] at hu
      simp only [Option.map_some'] at hu
      rw [List.filterMap_cons_some hb, List.filterMap_cons_some hu.symm, List.map_cons, ih]

theorem nodup_ids_replace (p : RawUser → Bool) (l : List RawUser)
    (h : (l.filterMap recordId).Nodup) :
    (((l.filter p).filterMap buildRadarUser).map (fun r => r.id)).Nodup := by
  rw [map_id_filterMap_build]
  exact List.Nodup.sublist (List.Sublist.filterMap recordId (List.filter_sublist l)) h

theorem nodup_ids_filter (p : RadarUser → Bool) (l : List RadarUser)
    (h : (l.map (fun r => r.id)).Nodup) : ((l.filter p).map (fun r => r.id)).Nodup :=
  List.Nodup.sublist (List.Sublist.map _ (List.filter_sublist l)) h

theorem nodup_ids_upsert (next : RadarUser) (l : List RadarUser)
    (h : (l.map (fun r => r.id)).Nodup) :
    ((l.filter (fun u => decide (u.id ≠ next.id)) ++ [next]).map (fun r => r.id)).Nodup := by
  rw [List.map_append, List.nodup_append]
  refine ⟨nodup_ids_filter _ l h, by simp, ?_⟩
  intro x hx hx2
  simp only [List.map_cons, List.map_nil, List.mem_singleton] at hx2
  subst hx2
  simp only [List.mem_map, List.mem_filter, decide_eq_true_eq] at hx
  obtain ⟨r, ⟨_, hne⟩, heq⟩ := hx
  exact hne heq

theorem applyUpdate_nodup (s : RadarState) (u : Update) (hs : (userIds s).Nodup)
    (hu : distinctIds u) : (userIds (applyUpdate s u)).Nodup := by
  unfold userIds at hs ⊢
  cases u with
  | snapshot payload =>
    simp only [applyUpdate, handleNearbyUsers]
    split
    · exact hs
    · split
      · exact hs
      · exact nodup_ids_replace _ _ hu
  | incremental payload =>
    simp only [applyUpdate, handleLocationUpdate]
    split
    · exact hs
    · split
      · exact hs
      · split
        · exact hs
        · split
          · exact hs
          · split
            · exact nodup_ids_filter _ _ hs
            · split
              · split
                · exact hs
                · exact nodup_ids_upsert _ _ hs
              · exact hs
  | poll mounted r =>
    cases r with
    | data success users =>
      simp only [applyUpdate, fetchNearbyUsers]
      split
      · exact hs
      · exact nodup_ids_replace _ _ hu
    | failure message =>
      simp only [applyUpdate, fetchNearbyUsers]
      split
      · exact hs
      · exact hs

theorem runUpdates_nodup (us : List Update) :
    ∀ s : RadarState, (userIds s).Nodup → (∀ u ∈ us, distinctIds u) →
      (userIds (runUpdates s us)).Nodup := by
  induction us with
  | nil => intro s hs _; exact hs
  | cons u t ih =>
    intro s hs hu
    exact ih (applyUpdate s u)
      (applyUpdate_nodup s u hs (hu u (List.mem_cons_self u t)))
      (fun v hv => hu v (List.mem_cons_of_mem u hv))


theorem buildRadarUser_of_rawId {u : RawUser} {i : String} (h : rawId u = some i)
    (hi : i ≠ "") : ∃ r, buildRadarUser u = some r ∧ r.id = i := by
  unfold buildRadarUser
  simp [h, hi]

theorem build_ne_local {L : Option String} {u : RawUser} {r : RadarUser}
    (hu : rawId u ≠ L) (hb : buildRadarUser u = some r) : some r.id ≠ L := by
  rw [← (buildRadarUser_rawId hb).1]
  exact hu

/-- The snapshot handler never enters the local user, under either id field. -/
theorem handleNearbyUsers_excludes_local (s : RadarState) (payload : NearbyUsersPayload)
    (L : String) (hL : s.userId = some L) (hne : L ≠ "") (hs : L ∉ userIds s) :
    L ∉ userIds (handleNearbyUsers s payload) := by
  unfold handleNearbyUsers
  split
  · exact hs
  · split
    · exact hs
    · intro hmem
      simp only [userIds, List.mem_map, List.mem_filterMap, List.mem_filter] at hmem
      obtain ⟨r, ⟨u, ⟨_, hnl⟩, hb⟩, hid⟩ := hmem
      have ht : truthy s.userId = true := by simp [hL, truthy, hne]
      simp only [notLocal, ht, if_true, decide_eq_true_eq] at hnl
      exact build_ne_local hnl hb (by rw [hL, hid])

/-- The incremental handler never enters the local user, under either id field. -/
theorem handleLocationUpdate_excludes_local (s : RadarState) (payload : LocationUpdatePayload)
    (L : String) (hL : s.userId = some L) (hne : L ≠ "") (hs : L ∉ userIds s) :
    L ∉ userIds (handleLocationUpdate s payload) := by
  have ht : truthy s.userId = true := by simp [hL, truthy, hne]
  have hfilter : ∀ p : RadarUser → Bool, L ∉ (s.users.filter p).map (fun u => u.id) := by
    intro p hmem
    exact hs ((List.Sublist.map _ (List.filter_sublist s.users)).subset hmem)
  unfold handleLocationUpdate
  split
  · exact hs
  · split
    · exact hs
    · rename_i incoming _
      split
      · exact hs
      · simp only [ht, Bool.true_and, decide_eq_true_eq]
        split
        · exact hs
        · rename_i hloc
          split
          · exact hfilter _
          · split
            · split
              · exact hs
              · rename_i next hb
                intro hmem
                simp only [userIds, List.map_append, List.mem_append, List.map_cons,
                  List.map_nil, List.mem_singleton] at hmem
                rcases hmem with hmem | hmem
                · exact hfilter _ hmem
                · exact build_ne_local hloc hb (by rw [hL, hmem])
            · exact hs

/-! ## C1 -/

/-- C1, as stated, fails: with the radar open in room p1, one snapshot for p1 that carries
the id a twice leaves two entries with id a in the nearby-user set. -/
theorem snapshot_duplicate_ids_counterexample :
    ¬ (userIds (runUpdates { isOpen := true, placeId := some "p1" }
        [.snapshot { place_id := some "p1",
                     users := some [{ user_id := some "a" }, { user_id := some "a" }] }])).Nodup := by
  decide

/-- C1, amended: starting from the empty nearby-user set, after any finite sequence of
snapshot, incremental and poll updates in which no snapshot or poll payload carries two
identified records with the same id, the resulting set has no two entries with the same id. -/
theorem no_duplicate_ids_of_distinct_payloads (s0 : RadarState) (us : List Update)
    (h0 : s0.users = []) (hus : ∀ u ∈ us, distinctIds u) :
    (userIds (runUpdates s0 us)).Nodup :=
  runUpdates_nodup us s0 (by simp [userIds, h0]) hus

/-- C1 witness: a snapshot of a and b, an entry of a, and a poll of b and c. -/
theorem no_duplicate_ids_of_distinct_payloads_witness :
    (userIds (runUpdates { isOpen := true, placeId := some "p1", userId := some "me" }
      [.snapshot { place_id := some "p1",
                   users := some [{ user_id := some "a" }, { id := some "b" }] },
       .incremental { place_id := some "p1", user := some { user_id := some "a" },
                      event_type := some "user_entered" },
       .poll true (.data true [{ user_id := some "b" }, { user_id := some "c" }])])).Nodup :=
  no_duplicate_ids_of_distinct_payloads _ _ rfl (by
    intro u hu
    simp only [List.mem_cons, List.mem_singleton, List.not_mem_nil, or_false] at hu
    rcases hu with h | h | h <;> subst h <;> simp [distinctIds, recordId, rawId, jsOr, truthy])

/-! ## C2 -/

/-- C2 fails on the poll path: with local id me, a successful poll whose record carries me
in the field id (and no user_id) puts an entry with id me into the set. -/
theorem poll_admits_local_id_in_id_field :
    userIds (runUpdates { isOpen := true, placeId := some "p1", userId := some "me" }
      [.poll true (.data true [{ id := some "me" }])]) = ["me"] := by
  decide

/-! ## C3 -/

/-- With a current room, the two handlers leave the set as it was on a payload scoped to a
non-empty place id other than that room. -/
theorem handlers_ignore_other_room (s : RadarState) (room p : String)
    (snap : NearbyUsersPayload) (inc : LocationUpdatePayload)
    (hroom : s.placeId = some room) (hr : room ≠ "") (hp : p ≠ "") (hne : p ≠ room)
    (hsnap : snap.place_id = some p) (hinc : inc.place_id = some p) :
    (handleNearbyUsers s snap).users = s.users ∧
      (handleLocationUpdate s inc).users = s.users := by
  have hm : roomMismatch (some p) (some room) = true := by
    simp [roomMismatch, truthy, hr, hp, hne]
  constructor
  · unfold handleNearbyUsers
    rw [hsnap, hroom, hm]
    split <;> rfl
  · unfold handleLocationUpdate
    rw [hinc, hroom, hm]
    split
    · rfl
    · split <;> rfl

/-- While the listeners are subscribed the radar has a non-empty current place id. -/
theorem listenersSubscribed_room (authReady : Bool) (s : RadarState)
    (h : listenersSubscribed authReady s = true) :
    ∃ room, s.placeId = some room ∧ room ≠ "" := by
  have ht : truthy s.placeId = true := by
    simp only [listenersSubscribed, Bool.and_eq_true] at h
    exact h.1.2
  cases hpl : s.placeId with
  | none => rw [hpl] at ht; simp [truthy] at ht
  | some room =>
    refine ⟨room, rfl, ?_⟩
    intro he
    rw [hpl, he] at ht
    simp [truthy] at ht

/-- C3, as stated, fails: the radar is open in room p1 with its listeners subscribed, and
a snapshot, or an entry event, whose place id is the empty string, a place id other than
p1, changes the nearby-user set. -/
theorem empty_place_id_event_applied_counterexample :
    (nearbyUsersEvent true
        { isOpen := true, placeId := some "p1", token := some "t", hasSocket := true }
        { place_id := some "", users := some [{ user_id := some "a" }] }).users
      ≠ ({ isOpen := true, placeId := some "p1", token := some "t", hasSocket := true } :
          RadarState).users ∧
    (locationUpdateEvent true
        { isOpen := true, placeId := some "p1", token := some "t", hasSocket := true }
        { place_id := some "", user := some { user_id := some "a" },
          event_type := some "user_entered" }).users
      ≠ ({ isOpen := true, placeId := some "p1", token := some "t", hasSocket := true } :
          RadarState).users := by
  decide

/-- C3, amended: for every radar state, with a current room or without one, a snapshot or
incremental event scoped to a non-empty place id different from the current room leaves the
nearby-user set as it was: without a room no handler is subscribed, and with a room the
handler returns at its stale-room guard. -/
theorem stale_room_events_ignored (authReady : Bool) (s : RadarState) (p : String)
    (snap : NearbyUsersPayload) (inc : LocationUpdatePayload)
    (hp : p ≠ "") (hne : s.placeId ≠ some p)
    (hsnap : snap.place_id = some p) (hinc : inc.place_id = some p) :
    (nearbyUsersEvent authReady s snap).users = s.users ∧
      (locationUpdateEvent authReady s inc).users = s.users := by
  unfold nearbyUsersEvent locationUpdateEvent
  cases hsub : listenersSubscribed authReady s with
  | false => exact ⟨rfl, rfl⟩
  | true =>
    obtain ⟨room, hroom, hr⟩ := listenersSubscribed_room authReady s hsub
    have hpr : p ≠ room := by
      intro he
      exact hne (by rw [hroom, he])
    simpa using handlers_ignore_other_room s room p snap inc hroom hr hp hpr hsnap hinc

/-- C3 witness: room p1 with the listeners subscribed, events scoped to p2. -/
theorem stale_room_events_ignored_witness :
    (nearbyUsersEvent true
        { isOpen := true, placeId := some "p1", token := some "t", hasSocket := true }
        { place_id := some "p2", users := some [{ user_id := some "a" }] }).users
        = ({ isOpen := true, placeId := some "p1", token := some "t", hasSocket := true } :
            RadarState).users ∧
      (locationUpdateEvent true
        { isOpen := true, placeId := some "p1", token := some "t", hasSocket := true }
        { place_id := some "p2", user := some { user_id := some "a" },
          event_type := some "user_entered" }).users
        = ({ isOpen := true, placeId := some "p1", token := some "t", hasSocket := true } :
            RadarState).users :=
  stale_room_events_ignored true _ "p2" _ _ (by decide) (by decide) rfl rfl

/-! ## C4 -/

/-- C4: with current room p1, the radar open and a local id distinct from the ids of A, B
and C (three distinct identified users), the snapshot of A and B for p1, then the entry of
C in p1, then the departure of A from p1 leave a set whose ids are exactly B and C, each
once. -/
theorem scenario_snapshot_enter_leave (s : RadarState) (A B C : RawUser) (a b c : String)
    (hopen : s.isOpen = true) (hroom : s.placeId = some "p1")
    (hA : rawId A = some a) (hB : rawId B = some b) (hC : rawId C = some c)
    (ha : a ≠ "") (hb : b ≠ "") (hc : c ≠ "")
    (hab : a ≠ b) (hac : a ≠ c) (hbc : b ≠ c)
    (hLa : s.userId ≠ some a) (hLb : s.userId ≠ some b) (hLc : s.userId ≠ some c) :
    userIds (runUpdates s
      [.snapshot { place_id := some "p1", users := some [A, B] },
       .incremental { place_id := some "p1", user := some C, event_type := some "user_entered" },
       .incremental { place_id := some "p1", user := some A, event_type := some "user_left" }])
      = [b, c] := by
  obtain ⟨rA, hbA, hidA⟩ := buildRadarUser_of_rawId hA ha
  obtain ⟨rB, hbB, hidB⟩ := buildRadarUser_of_rawId hB hb
  obtain ⟨rC, hbC, hidC⟩ := buildRadarUser_of_rawId hC hc
  have hm : roomMismatch (some "p1") (some "p1") = false := by decide
  have hnA : notLocal s.userId A = true := by
    unfold notLocal; split <;> simp [hA, Ne.symm hLa]
  have hnB : notLocal s.userId B = true := by
    unfold notLocal; split <;> simp [hB, Ne.symm hLb]
  have hlc : (truthy s.userId && decide (some c = s.userId)) = false := by
    simp [Ne.symm hLc]
  have hla : (truthy s.userId && decide (some a = s.userId)) = false := by
    simp [Ne.symm hLa]
  simp [runUpdates, applyUpdate, handleNearbyUsers, handleLocationUpdate, userIds, hopen,
    hroom, hm, hnA, hnB, hbA, hbB, hbC, hA, hC, hlc, hla, hidA, hidB, hidC,
    hab, hac, hbc, Ne.symm hab, Ne.symm hac, Ne.symm hbc, List.filter_cons]

/-- C4 witness: A, B, C identified by user_id, id and user_id; local id me. -/
theorem scenario_snapshot_enter_leave_witness :
    userIds (runUpdates { isOpen := true, placeId := some "p1", userId := some "me" }
      [.snapshot { place_id := some "p1",
                   users := some [{ user_id := some "A" }, { id := some "B" }] },
       .incremental { place_id := some "p1", user := some { user_id := some "C" },
                      event_type := some "user_entered" },
       .incremental { place_id := some "p1", user := some { user_id := some "A" },
                      event_type := some "user_left" }])
      = ["B", "C"] :=
  scenario_snapshot_enter_leave _ _ _ _ "A" "B" "C" rfl rfl rfl rfl rfl
    (by decide) (by decide) (by decide) (by decide) (by decide) (by decide)
    (by decide) (by decide) (by decide)

/-! ## C5 -/

theorem replace_eq_snapshotSet (L : Option String) (l : List RawUser) :
    (l.filter (notLocal L)).filterMap buildRadarUser = snapshotSet L l := by
  induction l with
  | nil => rfl
  | cons u t ih =>
    unfold snapshotSet
    by_cases hL : truthy L = true
    · by_cases hu : rawId u = L
      · have hn : notLocal L u = false := by simp [notLocal, hL, hu]
        rw [List.filter_cons_of_neg (by simp [hn])]
        simp [hL, hu, ih]
      · have hn : notLocal L u = true := by simp [notLocal, hL, hu]
        rw [List.filter_cons_of_pos hn]
        cases hb : buildRadarUser u with
        | none => simp [hL, hu, hb, ih]
        | some r => simp [hL, hu, hb, ih]
    · have hn : notLocal L u = true := by simp [notLocal, hL]
      rw [List.filter_cons_of_pos hn]
      cases hb : buildRadarUser u with
      | none => simp [hL, hb, ih]
      | some r => simp [hL, hb, ih]

/-- C5: for every previous set and every snapshot payload that the handler accepts (radar
open, not rejected by the stale-room guard), the new set is the payload's users in payload
order, without the records of the local user id and without the records that have no id,
each placed by buildRadarUser; the previous set plays no part. -/
theorem snapshot_replaces_set (s : RadarState) (prev : List RadarUser)
    (payload : NearbyUsersPayload) (hopen : s.isOpen = true)
    (hroom : roomMismatch payload.place_id s.placeId = false) :
    (handleNearbyUsers { s with users := prev } payload).users
      = snapshotSet s.userId (payload.users.getD []) := by
  simp only [handleNearbyUsers, hopen, hroom, Bool.not_true, Bool.false_eq_true, if_false]
  exact replace_eq_snapshotSet _ _

/-- C5 witness: previous set holding z; snapshot of me, a record without id, and a. -/
theorem snapshot_replaces_set_witness :
    (handleNearbyUsers
        { ({ isOpen := true, placeId := some "p1", userId := some "me" } : RadarState) with
          users := (buildRadarUser { user_id := some "z" }).toList }
        { place_id := some "p1",
          users := some [{ id := some "me" }, { name := some "ghost" }, { user_id := some "a" }] }).users
      = snapshotSet (some "me")
          [{ id := some "me" }, { name := some "ghost" }, { user_id := some "a" }] :=
  snapshot_replaces_set { isOpen := true, placeId := some "p1", userId := some "me" } _
    { place_id := some "p1",
      users := some [{ id := some "me" }, { name := some "ghost" }, { user_id := some "a" }] }
    rfl (by decide)

/-! ## C6 -/

theorem filter_ne_eq_self (l : List RadarUser) (uid : String)
    (h : uid ∉ l.map (fun u => u.id)) :
    l.filter (fun u => decide (u.id ≠ uid)) = l := by
  rw [List.filter_eq_self]
  intro r hr
  simp only [decide_eq_true_eq]
  intro heq
  exact h (List.mem_map.mpr ⟨r, hr, heq⟩)

/-- C6: for every set S and every incremental event for an identified user u whose id is
not the local id, handled while the radar is open and not rejected by the stale-room guard
(as is every event of the current room): user_left yields S without the entries of id u,
which is S itself when u is absent; user_entered yields a set whose only entry of id u is
buildRadarUser(u) and whose entries of other ids are those of S, in order; any other
event_type leaves S unchanged. -/
theorem incremental_event_effect (s : RadarState) (payload : LocationUpdatePayload)
    (u : RawUser) (uid : String)
    (hopen : s.isOpen = true) (huser : payload.user = some u)
    (hroom : roomMismatch payload.place_id s.placeId = false)
    (hid : rawId u = some uid) (hne : uid ≠ "") (hlocal : s.userId ≠ some uid) :
    (payload.event_type = some "user_left" →
      (handleLocationUpdate s payload).users = s.users.filter (fun e => decide (e.id ≠ uid)) ∧
      (uid ∉ userIds s → (handleLocationUpdate s payload).users = s.users)) ∧
    (payload.event_type = some "user_entered" →
      ∃ next, buildRadarUser u = some next ∧ next.id = uid ∧
        (handleLocationUpdate s payload).users.filter (fun e => decide (e.id = uid)) = [next] ∧
        (handleLocationUpdate s payload).users.filter (fun e => decide (e.id ≠ uid))
          = s.users.filter (fun e => decide (e.id ≠ uid))) ∧
    (payload.event_type ≠ some "user_left" → payload.event_type ≠ some "user_entered" →
      (handleLocationUpdate s payload).users = s.users) := by
  have hl : (truthy s.userId && decide (some uid = s.userId)) = false := by
    simp [Ne.symm hlocal]
  obtain ⟨next, hb, hnid⟩ := buildRadarUser_of_rawId hid hne
  refine ⟨?_, ?_, ?_⟩
  · intro hev
    have hres : (handleLocationUpdate s payload).users
        = s.users.filter (fun e => decide (e.id ≠ uid)) := by
      simp [handleLocationUpdate, hopen, huser, hroom, hid, hl, hev]
    exact ⟨hres, fun habs => by rw [hres]; exact filter_ne_eq_self _ _ habs⟩
  · intro hev
    have hres : (handleLocationUpdate s payload).users
        = s.users.filter (fun e => decide (e.id ≠ uid)) ++ [next] := by
      simp [handleLocationUpdate, hopen, huser, hroom, hid, hl, hev, hb, hnid]
    refine ⟨next, hb, hnid, ?_, ?_⟩
    · rw [hres, List.filter_append, List.filter_filter]
      simp [hnid, List.filter_cons]
    · rw [hres, List.filter_append, List.filter_filter]
      simp [hnid, List.filter_cons]
  · intro h1 h2
    simp [handleLocationUpdate, hopen, huser, hroom, hid, hl, h1, h2]

/-- C6 witness: the set holding a and b receives an event for a in the current room. -/
theorem incremental_event_effect_witness :
    userIds (handleLocationUpdate
        { ({ isOpen := true, placeId := some "p1", userId := some "me" } : RadarState) with
          users := (buildRadarUser { user_id := some "a" }).toList
                    ++ (buildRadarUser { user_id := some "b" }).toList }
        { place_id := some "p1", user := some { id := some "a", name := some "Ann" },
          event_type := some "user_left" }) = ["b"] := by
  have h := (incremental_event_effect
    { ({ isOpen := true, placeId := some "p1", userId := some "me" } : RadarState) with
      users := (buildRadarUser { user_id := some "a" }).toList
                ++ (buildRadarUser { user_id := some "b" }).toList }
    { place_id := some "p1", user := some { id := some "a", name := some "Ann" },
      event_type := some "user_left" }
    { id := some "a", name := some "Ann" } "a" rfl rfl (by decide) (by decide) (by decide)
    (by decide)).1 rfl
  rw [userIds, h.1]
  decide

/-! ## C7 -/

/-- Where every record carries a truthy user_id, a successful poll and an accepted snapshot
leave the same set. -/
theorem poll_eq_snapshot_of_user_id (s : RadarState) (U : List RawUser)
    (payload : NearbyUsersPayload) (hopen : s.isOpen = true)
    (hroom : roomMismatch payload.place_id s.placeId = false)
    (hU : payload.users = some U) (hids : ∀ u ∈ U, truthy u.user_id = true) :
    (fetchNearbyUsers s true (.data true U)).users = (handleNearbyUsers s payload).users := by
  have hf : U.filter (pollNotLocal s.userId) = U.filter (notLocal s.userId) := by
    apply List.filter_congr
    intro u hu
    simp [pollNotLocal, notLocal, rawId, jsOr, hids u hu]
  simp [fetchNearbyUsers, handleNearbyUsers, hopen, hroom, hU, hf]

/-- C7 fails on records identified by the field id: with local id me and U holding the
one record whose id field is me, a successful poll carrying U leaves an entry with id me,
while a snapshot for the current room carrying U leaves the empty set. -/
theorem poll_differs_from_snapshot_on_id_field :
    userIds (fetchNearbyUsers { isOpen := true, placeId := some "p1", userId := some "me" }
        true (.data true [{ id := some "me" }])) = ["me"] ∧
      userIds (handleNearbyUsers { isOpen := true, placeId := some "p1", userId := some "me" }
        { place_id := some "p1", users := some [{ id := some "me" }] }) = [] := by
  decide

/-! ## C8 -/

theorem mem_interval_firings (period cleanupAt t : Nat) (hp : 0 < period) :
    t ∈ ((List.range (cleanupAt / period + 1)).map (fun k => k * period)).filter
        (fun t => decide (0 < t) && decide (t < cleanupAt))
      ↔ 0 < t ∧ t < cleanupAt ∧ period ∣ t := by
  simp only [List.mem_filter, List.mem_map, List.mem_range, Bool.and_eq_true,
    decide_eq_true_eq]
  constructor
  · rintro ⟨⟨k, _, rfl⟩, h0, hlt⟩
    exact ⟨h0, hlt, Dvd.intro_left k rfl⟩
  · rintro ⟨h0, hlt, ⟨k, rfl⟩⟩
    refine ⟨⟨k, ?_, Nat.mul_comm k period⟩, h0, hlt⟩
    have hk : k ≤ cleanupAt / period := by
      rw [Nat.le_div_iff_mul_le hp]
      rw [Nat.mul_comm]
      exact Nat.le_of_lt hlt
    omega

/-- C8: in every state with socketConnected true the fallback effect sets up nothing, so
no fetch is issued and no interval scheduled; in every state where the radar is open with
a place id, a location and a token and socketConnected is false, it calls the fetch at once
and schedules it with period 5000 ms, so that until the cleanup the fetch is issued at
exactly the multiples of 5000 ms. -/
theorem poll_fallback_schedule (s : RadarState) :
    (s.socketConnected = true →
      pollEffect s = none ∧ ∀ cleanupAt, pollFetchTimes (pollEffect s) cleanupAt = []) ∧
    (s.isOpen = true → truthy s.placeId = true → s.hasLocation = true →
      truthy s.token = true → s.socketConnected = false →
      pollEffect s = some { fetchNow := true, intervalMs := 5000 } ∧
      ∀ cleanupAt t, 0 < cleanupAt →
        (t ∈ pollFetchTimes (pollEffect s) cleanupAt ↔ t < cleanupAt ∧ 5000 ∣ t)) := by
  constructor
  · intro hc
    have h : pollEffect s = none := by simp [pollEffect, hc]
    exact ⟨h, fun _ => by rw [h]; rfl⟩
  · intro ho hp hl ht hc
    have h : pollEffect s = some { fetchNow := true, intervalMs := 5000 } := by
      simp [pollEffect, ho, hp, hl, ht, hc]
    refine ⟨h, ?_⟩
    intro cleanupAt t hpos
    rw [h]
    simp only [pollFetchTimes, if_true, List.mem_append, List.mem_singleton]
    rw [mem_interval_firings 5000 cleanupAt t (by decide)]
    constructor
    · rintro (h0 | ⟨_, hlt, hd⟩)
      · subst h0
        exact ⟨hpos, Nat.dvd_zero 5000⟩
      · exact ⟨hlt, hd⟩
    · rintro ⟨hlt, hd⟩
      rcases Nat.eq_zero_or_pos t with h0 | h0
      · exact Or.inl h0
      · exact Or.inr ⟨h0, hlt, hd⟩

/-- C8 witness: an open, disconnected radar cleaned up after 12 seconds fetched at 0, 5000
and 10000 ms; the same radar connected fetched nothing. -/
theorem poll_fallback_schedule_witness :
    pollFetchTimes
        (pollEffect
          { isOpen := true, placeId := some "p1", hasLocation := true, token := some "t",
            socketConnected := true }) 12000 = [] ∧
      (10000 ∈ pollFetchTimes
        (pollEffect
          { isOpen := true, placeId := some "p1", hasLocation := true, token := some "t",
            socketConnected := false }) 12000
        ↔ 10000 < 12000 ∧ 5000 ∣ 10000) :=
  ⟨((poll_fallback_schedule
        { isOpen := true, placeId := some "p1", hasLocation := true, token := some "t",
          socketConnected := true }).1 rfl).2 12000,
   ((poll_fallback_schedule
        { isOpen := true, placeId := some "p1", hasLocation := true, token := some "t",
          socketConnected := false }).2 rfl (by decide) rfl (by decide) rfl).2
      12000 10000 (by decide)⟩

/-! ## C9 -/

/-- C9: when the place id changes from p_old to p_new while the radar is open and the
channel connected, with the socket and token the effect needs, the commit emits exactly one
leave_location for p_old and exactly one join_location for p_new, the leave before the
join: the emitted events are leave_location(p_old), join_location(p_new),
get_nearby_users. -/
theorem room_switch_leave_before_join (s : RadarState) (p_old p_new : String)
    (hopen : s.isOpen = true) (hconn : s.socketConnected = true)
    (hsock : s.hasSocket = true) (htok : truthy s.token = true)
    (hplace : s.placeId = some p_old) (hold : p_old ≠ "") (hnew : p_new ≠ "")
    (hne : p_new ≠ p_old) :
    joinLeaveTransition s { s with placeId := some p_new }
      = [.leave_location s.token (some p_old), .join_location s.token (some p_new),
         .get_nearby_users s.token] ∧
    (joinLeaveTransition s { s with placeId := some p_new }).countP (isLeaveFor p_old) = 1 ∧
    (joinLeaveTransition s { s with placeId := some p_new }).countP (isJoinFor p_new) = 1 ∧
    (joinLeaveTransition s { s with placeId := some p_new }).findIdx (isLeaveFor p_old)
      < (joinLeaveTransition s { s with placeId := some p_new }).findIdx (isJoinFor p_new) := by
  have h : joinLeaveTransition s { s with placeId := some p_new }
      = [.leave_location s.token (some p_old), .join_location s.token (some p_new),
         .get_nearby_users s.token] := by
    have hto : truthy (some p_old) = true := by simp [truthy, hold]
    have htn : truthy (some p_new) = true := by simp [truthy, hnew]
    simp [joinLeaveTransition, joinLeaveDeps, joinLeaveEffect, hopen, hconn, hsock, htok,
      hplace, hto, htn, hne]
  rw [h]
  refine ⟨rfl, ?_, ?_, ?_⟩
  · simp [List.countP_cons, isLeaveFor]
  · simp [List.countP_cons, isJoinFor]
  · simp [List.findIdx_cons, isLeaveFor, isJoinFor]

/-- C9 witness: the switch from p1 to p2. -/
theorem room_switch_leave_before_join_witness :
    joinLeaveTransition
        { isOpen := true, placeId := some "p1", token := some "t", hasSocket := true,
          socketConnected := true }
        { isOpen := true, placeId := some "p2", token := some "t", hasSocket := true,
          socketConnected := true }
      = [.leave_location (some "t") (some "p1"), .join_location (some "t") (some "p2"),
         .get_nearby_users (some "t")] :=
  (room_switch_leave_before_join
    { isOpen := true, placeId := some "p1", token := some "t", hasSocket := true,
      socketConnected := true } "p1" "p2" rfl rfl rfl (by decide) rfl (by decide) (by decide)
    (by decide)).1

/-! ## C10 -/

/-- C10, as stated, fails: a radar joined to p1 receives the channel's disconnect; the
commit of the state with socketConnected false calls the cleanup of the last run, which
emits leave_location for p1 while the channel reports not connected. -/
theorem leave_emitted_on_disconnect_counterexample :
    joinLeaveTransition
        { isOpen := true, placeId := some "p1", token := some "t", hasSocket := true,
          socketConnected := true }
        (handleDisconnect
          { isOpen := true, placeId := some "p1", token := some "t", hasSocket := true,
            socketConnected := true })
      = [.leave_location (some "t") (some "p1")] ∧
    (handleDisconnect
        { isOpen := true, placeId := some "p1", token := some "t", hasSocket := true,
          socketConnected := true }).socketConnected = false := by
  decide

/-- C10, amended: join_location is emitted only in commits whose state reports the channel
connected; leave_location is emitted only by the cleanup of a run that emitted
join_location with the same token and place id while connected, whatever the connection
state at the time of the cleanup; when the radar is open with a place id while the channel
is not connected the effect emits nothing and returns no cleanup, and, given the socket and
the token, the next connect event emits join_location for that place id exactly once, a
following connected acknowledgement emitting nothing more. -/
theorem join_only_connected_once_on_connect (prev next s : RadarState) (p : String) :
    (∀ tok place, ChannelEvent.join_location tok place ∈ joinLeaveTransition prev next →
      next.socketConnected = true) ∧
    (∀ tok place, ChannelEvent.leave_location tok place ∈ joinLeaveTransition prev next →
      ChannelEvent.join_location tok place ∈ (joinLeaveEffect prev).emitted ∧
        prev.socketConnected = true) ∧
    (s.isOpen = true → s.placeId = some p → p ≠ "" → s.socketConnected = false →
      (joinLeaveEffect s).emitted = [] ∧ (joinLeaveEffect s).cleanup = none ∧
      (s.hasSocket = true → truthy s.token = true →
        joinLeaveTransition s (handleConnect s)
          = [.join_location s.token (some p), .get_nearby_users s.token] ∧
        (joinLeaveTransition s (handleConnect s)).countP (isJoinFor p) = 1 ∧
        joinLeaveTransition (handleConnect s) (handleConnectedAck (handleConnect s)) = [])) := by
  refine ⟨?_, ?_, ?_⟩
  · intro tok place hmem
    unfold joinLeaveTransition at hmem
    split at hmem
    · simp at hmem
    · rw [List.mem_append] at hmem
      rcases hmem with hmem | hmem
      · unfold joinLeaveEffect at hmem
        split at hmem <;> simp at hmem
      · unfold joinLeaveEffect at hmem
        split at hmem
        · simp at hmem
        · rename_i hg
          simp only [Bool.or_eq_true, Bool.not_eq_true', not_or] at hg
          simpa using hg.2
  · intro tok place hmem
    unfold joinLeaveTransition at hmem
    split at hmem
    · simp at hmem
    · rw [List.mem_append] at hmem
      rcases hmem with hmem | hmem
      · unfold joinLeaveEffect at hmem ⊢
        split at hmem
        · simp at hmem
        · rename_i hg
          simp only [Option.getD_some, List.mem_singleton, ChannelEvent.leave_location.injEq]
            at hmem
          rw [if_neg hg]
          simp only [Bool.or_eq_true, Bool.not_eq_true', not_or] at hg
          refine ⟨?_, by simpa using hg.2⟩
          rw [hmem.1, hmem.2]
          exact List.mem_cons_self _ _
      · unfold joinLeaveEffect at hmem
        split at hmem <;> simp at hmem
  · intro ho hp hne hc
    have htp : truthy (some p) = true := by simp [truthy, hne]
    refine ⟨by simp [joinLeaveEffect, hc], by simp [joinLeaveEffect, hc], ?_⟩
    intro hs ht
    have h : joinLeaveTransition s (handleConnect s)
        = [.join_location s.token (some p), .get_nearby_users s.token] := by
      simp [joinLeaveTransition, joinLeaveDeps, joinLeaveEffect, handleConnect, ho, hp, hc,
        hs, ht, htp]
    refine ⟨h, ?_, ?_⟩
    · rw [h]
      simp [List.countP_cons, isJoinFor]
    · simp [joinLeaveTransition, joinLeaveDeps, handleConnect, handleConnectedAck]

/-- C10 witness: an open radar in p1, not connected, then connected. -/
theorem join_only_connected_once_on_connect_witness :
    joinLeaveTransition
        { isOpen := true, placeId := some "p1", token := some "t", hasSocket := true,
          socketConnected := false }
        (handleConnect
          { isOpen := true, placeId := some "p1", token := some "t", hasSocket := true,
            socketConnected := false })
      = [.join_location (some "t") (some "p1"), .get_nearby_users (some "t")] :=
  ((join_only_connected_once_on_connect
      { isOpen := true, placeId := some "p1", token := some "t", hasSocket := true,
        socketConnected := false }
      { isOpen := true, placeId := some "p1", token := some "t", hasSocket := true,
        socketConnected := false }
      { isOpen := true, placeId := some "p1", token := some "t", hasSocket := true,
        socketConnected := false } "p1").2.2 rfl rfl (by decide) rfl).2.2 rfl (by decide)
    |>.1

end RadarScreen

namespace RadarScreen

/-! ## C11 -/

theorem natAbs_tmod_360 (a : Int) : (Int.tmod a 360).natAbs = a.natAbs % 360 := by
  cases a with
  | ofNat m =>
    show (((m % 360 : Nat) : Int)).natAbs = m % 360
    exact Int.natAbs_ofNat _
  | negSucc m =>
    show (-((Nat.succ m % 360 : Nat) : Int)).natAbs = Nat.succ m % 360
    rw [Int.natAbs_neg]
    exact Int.natAbs_ofNat _

theorem buildRadarUser_eq {u : RawUser} {i : String} (h : rawId u = some i) (hi : i ≠ "") :
    ∃ r, buildRadarUser u = some r ∧ r.angle = (idHash i).natAbs % 360 ∧
      r.distance = doubleValue (addQuarter (roundDouble ((idHash i).natAbs % 50) 100)) := by
  unfold buildRadarUser
  simp [h, hi, natAbs_tmod_360]

/-- The doubles `0.25 + k / 100` for `k` below 50, on mantissa and shift: each lies between
a quarter and three quarters, and within `2^-53` of the rational `(25 + k) / 100`. -/
theorem placement_double_nat :
    ∀ k < 50,
      2 ^ (addQuarter (roundDouble k 100)).2 ≤ 4 * (addQuarter (roundDouble k 100)).1 ∧
      4 * (addQuarter (roundDouble k 100)).1 ≤ 3 * 2 ^ (addQuarter (roundDouble k 100)).2 ∧
      100 * (addQuarter (roundDouble k 100)).1 * 2 ^ 53
        ≤ (25 + k) * 2 ^ (addQuarter (roundDouble k 100)).2 * 2 ^ 53
          + 100 * 2 ^ (addQuarter (roundDouble k 100)).2 ∧
      (25 + k) * 2 ^ (addQuarter (roundDouble k 100)).2 * 2 ^ 53
        ≤ 100 * (addQuarter (roundDouble k 100)).1 * 2 ^ 53
          + 100 * 2 ^ (addQuarter (roundDouble k 100)).2 := by
  decide

/-- The double `0.25 + k / 100` for `k` below 50 lies between a quarter and three quarters
and within `2^-53` of the rational `1/4 + k/100`. -/
theorem placement_double (k : Nat) (hk : k < 50) :
    (1 / 4 : ℚ) ≤ doubleValue (addQuarter (roundDouble k 100)) ∧
      doubleValue (addQuarter (roundDouble k 100)) ≤ 3 / 4 ∧
      |doubleValue (addQuarter (roundDouble k 100)) - (1 / 4 + (k : ℚ) / 100)| ≤ 1 / 2 ^ 53 := by
  obtain ⟨h1, h2, h3, h4⟩ := placement_double_nat k hk
  generalize addQuarter (roundDouble k 100) = x at h1 h2 h3 h4 ⊢
  obtain ⟨m, s⟩ := x
  simp only at h1 h2 h3 h4
  have hpos : (0 : ℚ) < 2 ^ s := by positivity
  have q1 : (2 : ℚ) ^ s ≤ 4 * (m : ℚ) := by exact_mod_cast h1
  have q2 : 4 * (m : ℚ) ≤ 3 * 2 ^ s := by exact_mod_cast h2
  have q3 : 100 * (m : ℚ) * 2 ^ 53 ≤ (25 + (k : ℚ)) * 2 ^ s * 2 ^ 53 + 100 * 2 ^ s := by
    exact_mod_cast h3
  have q4 : (25 + (k : ℚ)) * 2 ^ s * 2 ^ 53 ≤ 100 * (m : ℚ) * 2 ^ 53 + 100 * 2 ^ s := by
    exact_mod_cast h4
  have hm : doubleValue (m, s) * 2 ^ s = (m : ℚ) := by
    unfold doubleValue
    exact div_mul_cancel₀ _ (ne_of_gt hpos)
  generalize doubleValue (m, s) = d at hm ⊢
  generalize (2 : ℚ) ^ s = P at hpos q1 q2 q3 q4 hm
  rw [← hm] at q1 q2 q3 q4
  norm_num at q3 q4
  refine ⟨?_, ?_, ?_⟩
  · nlinarith
  · nlinarith
  · rw [abs_le]
    constructor
    · have : 0 ≤ (d - (1 / 4 + (k : ℚ) / 100) + 1 / 2 ^ 53) * P := by nlinarith
      have := nonneg_of_mul_nonneg_left this hpos
      linarith
    · have : 0 ≤ (1 / 2 ^ 53 - (d - (1 / 4 + (k : ℚ) / 100))) * P := by nlinarith
      have := nonneg_of_mul_nonneg_left this hpos
      linarith

/-- C11: for every raw user record with a non-empty string id, buildRadarUser returns an
entry whose angle is a natural number below 360 and whose distance is the double
0.25 + k/100 for a natural k at most 49, a number within 2^-53 of the rational 1/4 + k/100
and between 0 and 1; every record with the same id receives the same angle and the same
distance, whatever its other fields are. -/
theorem buildRadarUser_placement (u : RawUser) (id : String) (hid : rawId u = some id)
    (hne : id ≠ "") :
    ∃ r, buildRadarUser u = some r ∧ r.angle < 360 ∧
      (∃ k : Nat, k ≤ 49 ∧ r.distance = doubleValue (addQuarter (roundDouble k 100)) ∧
        |r.distance - (1 / 4 + (k : ℚ) / 100)| ≤ 1 / 2 ^ 53) ∧
      0 ≤ r.distance ∧ r.distance ≤ 1 ∧
      ∀ u', rawId u' = some id →
        ∃ r', buildRadarUser u' = some r' ∧ r'.angle = r.angle ∧ r'.distance = r.distance := by
  obtain ⟨r, hr, ha, hd⟩ := buildRadarUser_eq hid hne
  have hk : (idHash id).natAbs % 50 < 50 := Nat.mod_lt _ (by decide)
  obtain ⟨hlo, hhi, hclose⟩ := placement_double _ hk
  rw [← hd] at hlo hhi hclose
  refine ⟨r, hr, ?_, ⟨(idHash id).natAbs % 50, by omega, hd, hclose⟩, ?_, ?_, ?_⟩
  · rw [ha]; omega
  · linarith
  · linarith
  · intro u' hu'
    obtain ⟨r', hr', ha', hd'⟩ := buildRadarUser_eq hu' hne
    exact ⟨r', hr', by rw [ha', ha], by rw [hd', hd]⟩

/-- C11 witness: the record with user_id A. -/
theorem buildRadarUser_placement_witness :
    ∃ r, buildRadarUser { user_id := some "A" } = some r ∧ r.angle < 360 ∧
      (∃ k : Nat, k ≤ 49 ∧ r.distance = doubleValue (addQuarter (roundDouble k 100)) ∧
        |r.distance - (1 / 4 + (k : ℚ) / 100)| ≤ 1 / 2 ^ 53) ∧
      0 ≤ r.distance ∧ r.distance ≤ 1 ∧
      ∀ u', rawId u' = some "A" →
        ∃ r', buildRadarUser u' = some r' ∧ r'.angle = r.angle ∧ r'.distance = r.distance :=
  buildRadarUser_placement { user_id := some "A" } "A" rfl (by decide)

end RadarScreen

namespace PassScreen

open RadarScreen (truthy jsOr includes)

/-! ## C12 -/

theorem onPassBegin_waiting (user : TargetUser) (s : PassState) (h : s.waiting = true) :
    onPassBegin user s = none := by
  unfold onPassBegin
  split
  · rfl
  · simp [h]

theorem onPass_waiting (user : TargetUser) (s : PassState) (check : CheckResult)
    (send : SendResult) (h : s.waiting = true) : onPass user s check send = (s, []) := by
  simp [onPass, onPassBegin_waiting user s h]

theorem onPassBegin_some_waiting {user : TargetUser} {s s1 : PassState}
    (h : onPassBegin user s = some s1) : s1.waiting = true := by
  unfold onPassBegin at h
  split at h
  · simp at h
  · split at h
    · simp at h
    · simp only [Option.some.injEq] at h
      rw [← h]

theorem sendCount_onPassContinue_le (user : TargetUser) (s1 : PassState) (check : CheckResult)
    (send : SendResult) : sendCount (onPassContinue user s1 check send).2 ≤ 1 := by
  unfold onPassContinue
  cases check with
  | threw m => simp [sendCount]
  | response ok users =>
    simp only
    split
    · simp [sendCount]
    · cases send with
      | threw m => simp [sendCount]
      | response sendOk error =>
        simp only
        split
        · simp [sendCount]
        · split
          · simp [sendCount]
          · split <;> simp [sendCount]

/-- C12, as stated, fails in its last part: the first of two onPass invocations finds, in
its pre-check, the target's socials already unlocked and unlocks without sending; the
second, made while the first is in flight, sends nothing: no friend_requests/send call is
made, not one. -/
theorem onPass_twice_no_send_counterexample :
    sendCount (onPassTwice { id := some "x" } { accessToken := some "t" }
      (.response true (some [{ user_id := some "x", socials := some [("instagram", "@x")] }]))
      (.response true none)
      (.response true none) (.response true none)).2 = 0 := by
  decide

/-- C12, amended: in every pass-session state in which waiting is true, onPass issues no
request and leaves the state, hence waiting, unlocked, error and socials, unchanged;
consequently, of two onPass invocations for the same target, the second made while the
first is in flight, the second issues nothing and changes nothing, so that together they
make at most one friend_requests/send call, and exactly one when the first invocation's
pre-check neither throws nor finds the target's socials already unlocked. -/
theorem onPass_guard_while_waiting (user : TargetUser) (s : PassState)
    (check check2 : CheckResult) (send send2 : SendResult) :
    (s.waiting = true → onPass user s check send = (s, [])) ∧
    (s.waiting = false →
      onPassTwice user s check send check2 send2 = onPass user s check send ∧
      sendCount (onPassTwice user s check send check2 send2).2 ≤ 1 ∧
      (truthy s.accessToken = true → truthy user.id = true →
        ∀ ok users, check = .response ok users →
          (if ok then alreadyFriends user users else none) = none →
          sendCount (onPassTwice user s check send check2 send2).2 = 1)) := by
  refine ⟨onPass_waiting user s check send, ?_⟩
  intro hw
  have htwice : onPassTwice user s check send check2 send2 = onPass user s check send := by
    cases hb : onPassBegin user s with
    | none => simp [onPassTwice, onPass, hb]
    | some s1 =>
      have h2 := onPass_waiting user s1 check2 send2 (onPassBegin_some_waiting hb)
      have hr : onPass user s check send = onPassContinue user s1 check send := by
        simp [onPass, hb]
      rw [hr]
      simp [onPassTwice, hb, h2]
  refine ⟨htwice, ?_, ?_⟩
  · rw [htwice]
    unfold onPass
    cases hb : onPassBegin user s with
    | none => simp [sendCount]
    | some s1 => exact sendCount_onPassContinue_le user s1 check send
  · intro ht hu ok users hc hnf
    rw [htwice]
    have hb : onPassBegin user s = some { s with waiting := true, error := none } := by
      simp [onPassBegin, ht, hu, hw]
    simp only [onPass, hb, onPassContinue, hc, hnf]
    cases send with
    | threw m => simp [sendCount]
    | response sendOk error =>
      simp only
      split
      · simp [sendCount]
      · split
        · simp [sendCount]
        · split <;> simp [sendCount]

/-- C12 witness: a Locked session with a token passes twice; the pre-check shows no
unlocked socials and the send succeeds. -/
theorem onPass_guard_while_waiting_witness :
    sendCount (onPassTwice { id := some "x" } { accessToken := some "t" }
      (.response true (some [])) (.response true none)
      (.response true (some [])) (.response true none)).2 = 1 :=
  ((onPass_guard_while_waiting { id := some "x" } { accessToken := some "t" }
      (.response true (some [])) (.response true (some []))
      (.response true none) (.response true none)).2 rfl).2.2
    (by decide) (by decide) true (some []) rfl (by decide)

end PassScreen

namespace PassScreen

/-! ## C13 -/

theorem startTimer_intervals (s : PassState) (hwf : timerOwned s) :
    startTimer s =
      { s with
        intervals := [{ id := s.nextTimerId, t := UNLOCK_DURATION }]
        timerRef := some s.nextTimerId
        nextTimerId := s.nextTimerId + 1 } := by
  unfold startTimer
  cases hr : s.timerRef with
  | none =>
    have hnil : s.intervals = [] := by
      cases hi : s.intervals with
      | nil => rfl
      | cons iv rest =>
        have := hwf iv (by rw [hi]; exact List.mem_cons_self _ _)
        rw [hr] at this
        cases this
    simp [hnil]
  | some i =>
    have hall : ∀ iv ∈ s.intervals, iv.id = i := by
      intro iv hiv
      have := hwf iv hiv
      rw [hr] at this
      simpa using this
    simpa [clearInterval] using hall

theorem tick_running (s : PassState) (n : Nat) (t : Int) (hi : s.intervals = [⟨n, t⟩])
    (ht : 1 < t) :
    tick s = { s with intervals := [⟨n, t - 1⟩], seconds := t - 1 } := by
  have hnot : ¬ (t - 1 ≤ 0) := by omega
  simp [tick, timerCallback, hi, hnot]

theorem tick_expiring (s : PassState) (n : Nat) (hi : s.intervals = [⟨n, 1⟩])
    (hr : s.timerRef = some n) :
    tick s = { s with intervals := [], seconds := 0,
                      navigation := s.navigation ++ [.replaceRadar] } := by
  simp [tick, timerCallback, hi, hr, clearInterval]

theorem ticks_running (k : Nat) :
    ∀ (s : PassState) (n : Nat) (t : Int), s.intervals = [⟨n, t⟩] → s.timerRef = some n →
      (k : Int) < t → 0 < k →
      ticks k s = { s with intervals := [⟨n, t - k⟩], seconds := t - k } := by
  induction k with
  | zero => intro s n t _ _ _ h0; omega
  | succ k ih =>
    intro s n t hi hr hk _
    have ht : 1 < t := by omega
    have htick := tick_running s n t hi ht
    show ticks k (tick s) = _
    rw [htick]
    rcases Nat.eq_zero_or_pos k with h0 | hpos
    · subst h0
      simp [ticks]
    · rw [ih { s with intervals := [⟨n, t - 1⟩], seconds := t - 1 } n (t - 1) rfl hr
        (by omega) hpos]
      have e : t - 1 - (k : Int) = t - ((k + 1 : Nat) : Int) := by push_cast; ring
      simp [e]

theorem unlock_unlocked (s : PassState) : (unlock s).unlocked = true := by
  unfold unlock startTimer
  simp only
  split
  · simp only [clearInterval]
    split <;> rfl
  · rfl

theorem ticks_unlock_before (s : PassState) (hwf : timerOwned s) (k : Nat) (h0 : 0 < k)
    (hk : k < 60) :
    ticks k (unlock s) =
      { s with
        unlocked := true, waiting := false, error := none
        intervals := [⟨s.nextTimerId, 60 - k⟩]
        timerRef := some s.nextTimerId
        nextTimerId := s.nextTimerId + 1
        seconds := 60 - k } := by
  have hu : unlock s =
      { s with
        unlocked := true, waiting := false, error := none
        intervals := [⟨s.nextTimerId, 60⟩]
        timerRef := some s.nextTimerId
        nextTimerId := s.nextTimerId + 1 } := by
    unfold unlock
    rw [startTimer_intervals _ (by exact hwf)]
    rfl
  rw [hu, ticks_running k _ s.nextTimerId 60 rfl rfl (by omega) h0]

theorem ticks_unlock_expired (s : PassState) (hwf : timerOwned s) :
    ticks 60 (unlock s) =
      { s with
        unlocked := true, waiting := false, error := none
        intervals := []
        timerRef := some s.nextTimerId
        nextTimerId := s.nextTimerId + 1
        seconds := 0
        navigation := s.navigation ++ [.replaceRadar] } := by
  have h59 := ticks_unlock_before s hwf 59 (by decide) (by decide)
  have hsplit : ∀ (a : Nat) (x : PassState), ticks (a + 1) x = tick (ticks a x) := by
    intro a
    induction a with
    | zero => intro x; rfl
    | succ a ih => intro x; show ticks (a + 1) (tick x) = _; rw [ih]; rfl
  rw [show (60 : Nat) = 59 + 1 from rfl, hsplit, h59]
  rw [tick_expiring _ s.nextTimerId (by norm_num) rfl]

/-- C13: a session entered via unlock(), from a state whose only active interval, if any,
is the one timerRef holds, shows 60 - k remaining seconds after k one-second ticks, for
0 < k <= 60; before the 60th tick the countdown is still scheduled and no navigation has
been requested; the 60th tick cancels the countdown and requests the replacement of the
screen by Radar. -/
theorem unlock_countdown (s : PassState) (hwf : ∀ iv ∈ s.intervals, some iv.id = s.timerRef)
    (k : Nat) (h0 : 0 < k) (hk : k ≤ 60) :
    (unlock s).unlocked = true ∧
    (ticks k (unlock s)).seconds = 60 - (k : Int) ∧
    (k < 60 → (ticks k (unlock s)).navigation = s.navigation ∧
      (ticks k (unlock s)).intervals = [⟨s.nextTimerId, 60 - (k : Int)⟩]) ∧
    (k = 60 → (ticks k (unlock s)).navigation = s.navigation ++ [.replaceRadar] ∧
      (ticks k (unlock s)).intervals = []) := by
  refine ⟨unlock_unlocked s, ?_, ?_, ?_⟩
  · rcases Nat.lt_or_ge k 60 with h | h
    · rw [ticks_unlock_before s hwf k h0 h]
    · have : k = 60 := by omega
      subst this
      rw [ticks_unlock_expired s hwf]
      norm_num
  · intro h
    rw [ticks_unlock_before s hwf k h0 h]
    exact ⟨rfl, rfl⟩
  · intro h
    subst h
    rw [ticks_unlock_expired s hwf]
    exact ⟨rfl, rfl⟩

/-- C13 witness: the initial state of the screen, 60 ticks after unlock(). -/
theorem unlock_countdown_witness :
    (ticks 60 (unlock {})).seconds = 0 ∧
      (ticks 60 (unlock {})).navigation = [.replaceRadar] ∧
      (ticks 60 (unlock {})).intervals = [] :=
  have h := unlock_countdown {} (by intro iv hiv; cases hiv) 60 (by decide) (by decide)
  ⟨by simpa using h.2.1, by simpa using (h.2.2.2 rfl).1, (h.2.2.2 rfl).2⟩

/-! ## C14 -/

/-- C14, as stated, fails: a session holding the counterpart's instagram handle is unlocked
and 60 ticks pass; the expiring tick leaves the stored socials mapping and the unlocked
flag as they were, so the handle is still in the state and in the displayed socials. -/
theorem socials_kept_at_expiry_counterexample :
    (ticks 60 (unlock { userSocials := [("instagram", "@x")] })).userSocials
        = [("instagram", "@x")] ∧
      (socials (ticks 60 (unlock { userSocials := [("instagram", "@x")] }))).map
        (fun e => e.value) = [some "@x", none, none] := by
  rw [ticks_unlock_expired _ (by intro iv hiv; cases hiv)]
  decide

/-- C14, amended: when the unlock countdown reaches zero, the countdown is cancelled and
the replacement of the pass screen by Radar is requested; the expiring tick itself leaves
the stored socials mapping and the unlocked flag as they were, so the displayed socials
are still those of the unlocked session. -/
theorem expiry_keeps_socials (s : PassState)
    (hwf : ∀ iv ∈ s.intervals, some iv.id = s.timerRef) :
    (ticks 60 (unlock s)).intervals = [] ∧
    (ticks 60 (unlock s)).navigation = s.navigation ++ [.replaceRadar] ∧
    (ticks 60 (unlock s)).userSocials = s.userSocials ∧
    (ticks 60 (unlock s)).unlocked = true ∧
    socials (ticks 60 (unlock s)) = socials { s with unlocked := true } := by
  rw [ticks_unlock_expired s hwf]
  exact ⟨rfl, rfl, rfl, rfl, rfl⟩

/-- C14 witness: the initial state holding an instagram handle. -/
theorem expiry_keeps_socials_witness :
    (ticks 60 (unlock { userSocials := [("instagram", "@x")] })).userSocials
      = [("instagram", "@x")] :=
  (expiry_keeps_socials { userSocials := [("instagram", "@x")] }
    (by intro iv hiv; cases hiv)).2.2.1

end PassScreen

namespace PassScreen

open RadarScreen (truthy jsOr includes)

/-! ## C15 -/

theorem errorMsg_of_includes (err needle : String) (hn : includes "" needle = false)
    (h : includes err needle = true) :
    (jsOr (some err) (some "Failed to send pass")).getD "Failed to send pass" = err := by
  have hne : err ≠ "" := by
    intro he
    rw [he, hn] at h
    cases h
  simp [jsOr, truthy, hne]

theorem startTimer_fields (s : PassState) :
    (startTimer s).unlocked = s.unlocked ∧ (startTimer s).waiting = s.waiting ∧
      (startTimer s).error = s.error ∧ (startTimer s).userSocials = s.userSocials := by
  unfold startTimer
  simp only
  split
  · simp only [clearInterval]
    split <;> exact ⟨rfl, rfl, rfl, rfl⟩
  · exact ⟨rfl, rfl, rfl, rfl⟩

theorem unlock_fields (s : PassState) :
    (unlock s).unlocked = true ∧ (unlock s).waiting = false ∧ (unlock s).error = none ∧
      (unlock s).userSocials = s.userSocials := by
  obtain ⟨h1, h2, h3, h4⟩ := startTimer_fields { s with unlocked := true, waiting := false, error := none }
  exact ⟨h1, h2, h3, h4⟩

theorem onPass_sent {user : TargetUser} {s : PassState} {check : CheckResult}
    {send : SendResult}
    (h : Request.sendFriendRequest user.id ∈ (onPass user s check send).2) :
    onPassBegin user s = some { s with waiting := true, error := none } ∧
      ∃ ok users, check = .response ok users ∧
        (if ok then alreadyFriends user users else none) = none := by
  unfold onPass at h
  cases hb : onPassBegin user s with
  | none => simp [hb] at h
  | some s1 =>
    have hs1 : s1 = { s with waiting := true, error := none } := by
      unfold onPassBegin at hb
      split at hb
      · simp at hb
      · split at hb
        · simp at hb
        · simp only [Option.some.injEq] at hb
          exact hb.symm
    refine ⟨by rw [hs1], ?_⟩
    simp only [hb] at h
    cases check with
    | threw m => simp [onPassContinue] at h
    | response ok users =>
      refine ⟨ok, users, rfl, ?_⟩
      cases hf : (if ok then alreadyFriends user users else none) with
      | none => rfl
      | some so => simp [onPassContinue, hf] at h

/-- C15: when the friend_requests/send call of onPass, invoked in a session that is not
unlocked, is answered by a failure whose error contains 'already friends', onPass ends with
unlocked true, waiting false and error null; when the error contains 'already sent' (and
not 'already friends'), onPass ends with waiting true, unlocked false and error null. -/
theorem onPass_already_friends_or_sent (user : TargetUser) (s : PassState)
    (check : CheckResult) (err : String) (hlocked : s.unlocked = false)
    (hsent : Request.sendFriendRequest user.id
      ∈ (onPass user s check (.response false (some err))).2) :
    (includes err "already friends" = true →
      (onPass user s check (.response false (some err))).1.unlocked = true ∧
      (onPass user s check (.response false (some err))).1.waiting = false ∧
      (onPass user s check (.response false (some err))).1.error = none) ∧
    (includes err "already friends" = false → includes err "already sent" = true →
      (onPass user s check (.response false (some err))).1.waiting = true ∧
      (onPass user s check (.response false (some err))).1.unlocked = false ∧
      (onPass user s check (.response false (some err))).1.error = none) := by
  obtain ⟨hb, ok, users, hc, hnf⟩ := onPass_sent hsent
  constructor
  · intro hf
    have hm := errorMsg_of_includes err "already friends" (by decide) hf
    have hres : (onPass user s check (.response false (some err))).1
        = unlock { s with waiting := true, error := none } := by
      simp [onPass, hb, onPassContinue, hc, hnf, hm, hf]
    rw [hres]
    obtain ⟨h1, h2, h3, _⟩ := unlock_fields { s with waiting := true, error := none }
    exact ⟨h1, h2, h3⟩
  · intro hnf2 hs
    have hm := errorMsg_of_includes err "already sent" (by decide) hs
    have hres : (onPass user s check (.response false (some err))).1
        = { s with waiting := true, error := none } := by
      simp [onPass, hb, onPassContinue, hc, hnf, hm, hnf2, hs]
    rw [hres]
    exact ⟨rfl, hlocked, rfl⟩

/-- C15 witness: the server answers that the pass was already sent. -/
theorem onPass_already_friends_or_sent_witness :
    (onPass { id := some "x" } { accessToken := some "t" } (.response true (some []))
        (.response false (some "Friend request already sent"))).1.waiting = true ∧
      (onPass { id := some "x" } { accessToken := some "t" } (.response true (some []))
        (.response false (some "Friend request already sent"))).1.unlocked = false ∧
      (onPass { id := some "x" } { accessToken := some "t" } (.response true (some []))
        (.response false (some "Friend request already sent"))).1.error = none :=
  (onPass_already_friends_or_sent { id := some "x" } { accessToken := some "t" }
    (.response true (some [])) "Friend request already sent" rfl (by decide)).2
    (by decide) (by decide)

/-! ## C16 -/

/-- C16: for every failure while onPass, invoked in a Locked session (token and target
present, not waiting, not unlocked), sends its request, that is a thrown error in the
pre-check or in the send, or a failure response whose error contains neither 'already
friends' nor 'already sent', onPass ends with waiting false, unlocked false and error set
to the failure message (the text 'Failed to send pass' when the message is empty). -/
theorem onPass_failure_returns_to_locked (user : TargetUser) (s : PassState)
    (htok : truthy s.accessToken = true) (huser : truthy user.id = true)
    (hwait : s.waiting = false) (hlocked : s.unlocked = false) :
    (∀ message send,
      (onPass user s (.threw message) send).1.waiting = false ∧
      (onPass user s (.threw message) send).1.unlocked = false ∧
      (onPass user s (.threw message) send).1.error =
        some ((jsOr message (some "Failed to send pass")).getD "Failed to send pass")) ∧
    (∀ ok users message, (if ok then alreadyFriends user users else none) = none →
      (onPass user s (.response ok users) (.threw message)).1.waiting = false ∧
      (onPass user s (.response ok users) (.threw message)).1.unlocked = false ∧
      (onPass user s (.response ok users) (.threw message)).1.error =
        some ((jsOr message (some "Failed to send pass")).getD "Failed to send pass")) ∧
    (∀ ok users error, (if ok then alreadyFriends user users else none) = none →
      includes ((jsOr error (some "Failed to send pass")).getD "Failed to send pass")
        "already friends" = false →
      includes ((jsOr error (some "Failed to send pass")).getD "Failed to send pass")
        "already sent" = false →
      (onPass user s (.response ok users) (.response false error)).1.waiting = false ∧
      (onPass user s (.response ok users) (.response false error)).1.unlocked = false ∧
      (onPass user s (.response ok users) (.response false error)).1.error =
        some ((jsOr error (some "Failed to send pass")).getD "Failed to send pass")) := by
  have hb : onPassBegin user s = some { s with waiting := true, error := none } := by
    simp [onPassBegin, htok, huser, hwait]
  refine ⟨?_, ?_, ?_⟩
  · intro message send
    have h : (onPass user s (.threw message) send).1
        = passFailed { s with waiting := true, error := none } message := by
      simp [onPass, hb, onPassContinue]
    rw [h]
    exact ⟨rfl, hlocked, rfl⟩
  · intro ok users message hnf
    have h : (onPass user s (.response ok users) (.threw message)).1
        = passFailed { s with waiting := true, error := none } message := by
      simp [onPass, hb, onPassContinue, hnf]
    rw [h]
    exact ⟨rfl, hlocked, rfl⟩
  · intro ok users error hnf h1 h2
    have hne : (jsOr error (some "Failed to send pass")).getD "Failed to send pass" ≠ "" := by
      unfold jsOr
      cases error with
      | none => simp [truthy]
      | some e =>
        by_cases he : e = ""
        · simp [truthy, he]
        · simp [truthy, he]
    have h : (onPass user s (.response ok users) (.response false error)).1
        = passFailed { s with waiting := true, error := none }
            (some ((jsOr error (some "Failed to send pass")).getD "Failed to send pass")) := by
      simp [onPass, hb, onPassContinue, hnf, h1, h2]
    rw [h]
    refine ⟨rfl, hlocked, ?_⟩
    generalize (jsOr error (some "Failed to send pass")).getD "Failed to send pass" = m at hne
    simp [passFailed, jsOr, truthy, hne]

/-- C16 witness: the send request is answered by a failure the screen does not know. -/
theorem onPass_failure_returns_to_locked_witness :
    (onPass { id := some "x" } { accessToken := some "t" } (.response true (some []))
        (.response false (some "User is not currently in radar"))).1.waiting = false ∧
      (onPass { id := some "x" } { accessToken := some "t" } (.response true (some []))
        (.response false (some "User is not currently in radar"))).1.unlocked = false ∧
      (onPass { id := some "x" } { accessToken := some "t" } (.response true (some []))
        (.response false (some "User is not currently in radar"))).1.error
        = some ((jsOr (some "User is not currently in radar")
            (some "Failed to send pass")).getD "Failed to send pass") :=
  (onPass_failure_returns_to_locked { id := some "x" } { accessToken := some "t" }
    (by decide) (by decide) rfl rfl).2.2 true (some []) (some "User is not currently in radar")
    (by decide) (by decide) (by decide)

/-! ## C19 -/

/-- C19: a friend_request_accepted event whose user_id equals the id x of the counterpart
the screen shows ends with unlocked true and waiting false, and with the payload's socials
stored when the payload carries them; an event for any other user id issues no request and
leaves the whole state, hence waiting, unlocked, socials and the countdown, unchanged. -/
theorem accepted_event_unlocks_matching_counterpart (user : TargetUser) (s : PassState)
    (payload : AcceptedPayload) (refetch : CheckResult) (x : String) (hx : user.id = some x) :
    (payload.user.bind (fun u => u.user_id) = some x →
      (handleFriendRequestAccepted user s payload refetch).1.unlocked = true ∧
      (handleFriendRequestAccepted user s payload refetch).1.waiting = false ∧
      ∀ so, payload.user.bind (fun u => u.socials) = some so →
        (handleFriendRequestAccepted user s payload refetch).1.userSocials = so) ∧
    (payload.user.bind (fun u => u.user_id) ≠ some x →
      handleFriendRequestAccepted user s payload refetch = (s, [])) := by
  rw [← hx]
  constructor
  · intro hm
    unfold handleFriendRequestAccepted
    rw [if_pos hm]
    cases hs : payload.user.bind (fun u => u.socials) with
    | some so =>
      obtain ⟨h1, h2, _, h4⟩ := unlock_fields { s with userSocials := so }
      refine ⟨h1, h2, ?_⟩
      intro so' hso'
      simp only [Option.some.injEq] at hso'
      rw [← hso']
      exact h4
    | none =>
      simp only
      cases refetchedSocials user refetch with
      | some so =>
        obtain ⟨h1, h2, _, _⟩ := unlock_fields { s with userSocials := so }
        exact ⟨h1, h2, fun so' hso' => by cases hso'⟩
      | none =>
        obtain ⟨h1, h2, _, _⟩ := unlock_fields s
        exact ⟨h1, h2, fun so' hso' => by cases hso'⟩
  · intro hne
    unfold handleFriendRequestAccepted
    rw [if_neg hne]

/-- C19 witness: the session waits for x; x's acceptance arrives with socials. -/
theorem accepted_event_unlocks_matching_counterpart_witness :
    (handleFriendRequestAccepted { id := some "x" } { accessToken := some "t", waiting := true }
        { user := some { user_id := some "x", socials := some [("snapchat", "xs")] } }
        (.threw none)).1.unlocked = true ∧
      (handleFriendRequestAccepted { id := some "x" } { accessToken := some "t", waiting := true }
        { user := some { user_id := some "x", socials := some [("snapchat", "xs")] } }
        (.threw none)).1.waiting = false :=
  have h := (accepted_event_unlocks_matching_counterpart { id := some "x" }
    { accessToken := some "t", waiting := true }
    { user := some { user_id := some "x", socials := some [("snapchat", "xs")] } }
    (.threw none) "x" rfl).1 rfl
  ⟨h.1, h.2.1⟩

end PassScreen

namespace RadarScreen

/-! ## C17 -/

theorem actionRequestId_fields (s : RequestCardState) (lookup : PendingResult) :
    (actionRequestId s lookup).2.2.incomingRequest = s.incomingRequest ∧
      (actionRequestId s lookup).2.2.pendingRequestsCount = s.pendingRequestsCount ∧
      (actionRequestId s lookup).2.2.requestActionLoading = true ∧
      (∀ c ∈ (actionRequestId s lookup).1, c = RestCall.pendingList) := by
  unfold actionRequestId
  split
  · exact ⟨rfl, rfl, rfl, by simp⟩
  · refine ⟨rfl, rfl, rfl, ?_⟩
    simp only
    unfold resolveIncomingRequestId
    split
    · simp
    · cases lookup with
      | threw => simp
      | data requests =>
        simp only
        split <;> simp

theorem failed_reject_state (s : RequestCardState) (lookup : PendingResult) (id : String)
    (h : RestCall.reject id ∈ (handleRejectIncoming s lookup false).2) :
    (handleRejectIncoming s lookup false).1.incomingRequest = s.incomingRequest ∧
      (handleRejectIncoming s lookup false).1.pendingRequestsCount = s.pendingRequestsCount ∧
      (handleRejectIncoming s lookup false).1.requestActionLoading = false := by
  obtain ⟨h1, h2, _, _⟩ := actionRequestId_fields s lookup
  unfold handleRejectIncoming at h ⊢
  split
  · rename_i hb
    simp [hb] at h
  · rcases hq : actionRequestId s lookup with ⟨calls, rid, s2⟩
    rw [hq] at h1 h2
    cases rid with
    | none => exact ⟨h1, h2, rfl⟩
    | some requestId =>
      simp only
      split
      · exact ⟨h1, h2, rfl⟩
      · exact ⟨h1, h2, rfl⟩

theorem failed_accept_state (s : RequestCardState) (lookup : PendingResult) (id : String)
    (h : RestCall.accept id ∈ (handleAcceptIncoming s lookup false).2) :
    (handleAcceptIncoming s lookup false).1.incomingRequest = s.incomingRequest ∧
      (handleAcceptIncoming s lookup false).1.pendingRequestsCount = s.pendingRequestsCount ∧
      (handleAcceptIncoming s lookup false).1.requestActionLoading = false := by
  obtain ⟨h1, h2, _, _⟩ := actionRequestId_fields s lookup
  unfold handleAcceptIncoming at h ⊢
  split
  · rename_i hb
    simp [hb] at h
  · rcases hq : actionRequestId s lookup with ⟨calls, rid, s2⟩
    rw [hq] at h1 h2
    cases rid with
    | none => exact ⟨h1, h2, rfl⟩
    | some requestId =>
      simp only
      split
      · exact ⟨h1, h2, rfl⟩
      · exact ⟨h1, h2, rfl⟩

theorem settle_failed (l : FriendRequestsScreen.RequestsState)
    (request : FriendRequestsScreen.FriendRequest) (r : FriendRequestsScreen.RestResult)
    (hr : r = .threw ∨ r = .response false) :
    (FriendRequestsScreen.settleRequest l request r).requests = l.requests ∧
      request.request_id ∉ (FriendRequestsScreen.settleRequest l request r).processingIds := by
  have hdel : ∀ ids : List String,
      request.request_id ∉ FriendRequestsScreen.deleteProcessing ids request.request_id := by
    intro ids hmem
    simp [FriendRequestsScreen.deleteProcessing] at hmem
  rcases hr with hr | hr <;> subst hr
  · exact ⟨rfl, hdel _⟩
  · exact ⟨rfl, hdel _⟩

/-- C17: if the accept or reject REST call fails, the request stays as it was and the
action is enabled again: on the radar the incoming request and the pending badge count are
unchanged and requestActionLoading is false again; on the requests list the list is
unchanged and the request id is no longer in the processing set. -/
theorem failed_accept_or_reject_keeps_request (s : RequestCardState) (lookup : PendingResult)
    (id : String) (l : FriendRequestsScreen.RequestsState)
    (request : FriendRequestsScreen.FriendRequest) (r : FriendRequestsScreen.RestResult) :
    (RestCall.accept id ∈ (handleAcceptIncoming s lookup false).2 →
      (handleAcceptIncoming s lookup false).1.incomingRequest = s.incomingRequest ∧
      (handleAcceptIncoming s lookup false).1.pendingRequestsCount = s.pendingRequestsCount ∧
      (handleAcceptIncoming s lookup false).1.requestActionLoading = false) ∧
    (RestCall.reject id ∈ (handleRejectIncoming s lookup false).2 →
      (handleRejectIncoming s lookup false).1.incomingRequest = s.incomingRequest ∧
      (handleRejectIncoming s lookup false).1.pendingRequestsCount = s.pendingRequestsCount ∧
      (handleRejectIncoming s lookup false).1.requestActionLoading = false) ∧
    (request.request_id ∉ l.processingIds → (r = .threw ∨ r = .response false) →
      (FriendRequestsScreen.handleAccept l request r).requests = l.requests ∧
      request.request_id ∉ (FriendRequestsScreen.handleAccept l request r).processingIds ∧
      (FriendRequestsScreen.handleReject l request r).requests = l.requests ∧
      request.request_id ∉ (FriendRequestsScreen.handleReject l request r).processingIds) := by
  refine ⟨failed_accept_state s lookup id, failed_reject_state s lookup id, ?_⟩
  intro hnot hr
  obtain ⟨h1, h2⟩ := settle_failed l request r hr
  simp only [FriendRequestsScreen.handleAccept, FriendRequestsScreen.handleReject, hnot,
    if_false]
  exact ⟨h1, h2, h1, h2⟩

/-- C17 witness: the card shows y's request with id r1 resolved, the badge shows 2 and the
accept call throws; on the list the accept of r1 is answered with a failure. -/
theorem failed_accept_or_reject_keeps_request_witness :
    (handleAcceptIncoming
        { incomingRequest := some { user_id := some "y" }, incomingRequestId := some "r1",
          requestCardVisible := true, pendingRequestsCount := 2, token := some "t" }
        .threw false).1.pendingRequestsCount = 2 ∧
      (FriendRequestsScreen.handleAccept { requests := [{ request_id := "r1" }] }
        { request_id := "r1" } (.response false)).requests = [{ request_id := "r1" }] :=
  have h := failed_accept_or_reject_keeps_request
    { incomingRequest := some { user_id := some "y" }, incomingRequestId := some "r1",
      requestCardVisible := true, pendingRequestsCount := 2, token := some "t" }
    .threw "r1" { requests := [{ request_id := "r1" }] } { request_id := "r1" }
    (.response false)
  ⟨(h.1 (by decide)).2.1, (h.2.2 (by decide) (Or.inr rfl)).1⟩

/-! ## C18 -/

/-- C18, as stated, fails: the first poll of an open, disconnected radar fails with a
message containing 401; the error stored is a plain string, not an error of type auth, so
the auth view is not selected; no dependency of the fallback effect changes, so its
interval is not cleared and the fetch is issued again 5000 ms later. -/
theorem poll_auth_failure_counterexample :
    isAuthError (fetchNearbyUsers
        { isOpen := true, placeId := some "p1", hasLocation := true, token := some "t" }
        true (.failure "401 Unauthorized")).error = false ∧
      pollDeps (fetchNearbyUsers
        { isOpen := true, placeId := some "p1", hasLocation := true, token := some "t" }
        true (.failure "401 Unauthorized"))
        = pollDeps { isOpen := true, placeId := some "p1", hasLocation := true, token := some "t" } ∧
      5000 ∈ pollFetchTimes
        (pollEffect { isOpen := true, placeId := some "p1", hasLocation := true, token := some "t" })
        6000 := by
  decide

/-- C18, amended: when a poll fetch fails, with an authentication failure or any other, the
nearby-user set and every dependency of the fallback effect are left unchanged, so the
effect is not cleaned up and its interval issues the fetch again at every multiple of
5000 ms until the cleanup. -/
theorem poll_failure_keeps_polling (s : RadarState) (mounted : Bool) (message : String) :
    (fetchNearbyUsers s mounted (.failure message)).users = s.users ∧
    pollDeps (fetchNearbyUsers s mounted (.failure message)) = pollDeps s ∧
    pollEffect (fetchNearbyUsers s mounted (.failure message)) = pollEffect s ∧
    (pollEffect s = some { fetchNow := true, intervalMs := 5000 } →
      ∀ cleanupAt t, 0 < t → t < cleanupAt → 5000 ∣ t →
        t ∈ pollFetchTimes (pollEffect s) cleanupAt) := by
  have h : ∀ e, pollEffect { s with error := e } = pollEffect s := fun _ => rfl
  refine ⟨?_, ?_, ?_, ?_⟩
  · unfold fetchNearbyUsers
    simp only
    split <;> rfl
  · unfold fetchNearbyUsers
    simp only
    split <;> rfl
  · unfold fetchNearbyUsers
    simp only
    split
    · exact h _
    · rfl
  · intro hp cleanupAt t h0 hlt hd
    rw [hp]
    simp only [pollFetchTimes, List.mem_append]
    exact Or.inr ((mem_interval_firings 5000 cleanupAt t (by decide)).mpr ⟨h0, hlt, hd⟩)

/-- C18 witness: an open, disconnected radar whose poll failed still fetches at 5000 ms. -/
theorem poll_failure_keeps_polling_witness :
    5000 ∈ pollFetchTimes
      (pollEffect { isOpen := true, placeId := some "p1", hasLocation := true, token := some "t" })
      6000 :=
  (poll_failure_keeps_polling
    { isOpen := true, placeId := some "p1", hasLocation := true, token := some "t" }
    true "401 Unauthorized").2.2.2 rfl 6000 5000 (by decide) (by decide) (by decide)

/-! ## C20 -/

theorem blocked_of_loading (s : RequestCardState) (h : s.requestActionLoading = true) :
    actionBlocked s = true := by
  simp [actionBlocked, h]

/-- C20: when reject is invoked on an incoming request whose request id is not yet
resolved and the pending-list lookup resolves it, the handler first issues the lookup and
then exactly one reject call, with the resolved id; in every state the radar is in while
that action is in progress, an accept or reject invocation issues no call and changes
nothing. -/
theorem reject_waits_for_resolution (s : RequestCardState) (lookup : PendingResult)
    (restOk : Bool) (rid : String)
    (hfree : actionBlocked s = false) (hunresolved : truthy s.incomingRequestId = false)
    (hres : (resolveIncomingRequestId s.token (requesterIdOf s.incomingRequest) lookup).2
      = some rid) (hrid : rid ≠ "") :
    (handleRejectIncoming s lookup restOk).2 = [.pendingList, .reject rid] ∧
    ∀ s' ∈ actionInProgress s lookup, ∀ lookup' restOk',
      handleRejectIncoming s' lookup' restOk' = (s', []) ∧
      handleAcceptIncoming s' lookup' restOk' = (s', []) := by
  have hcalls : (resolveIncomingRequestId s.token (requesterIdOf s.incomingRequest) lookup).1
      = [.pendingList] := by
    unfold resolveIncomingRequestId at hres ⊢
    split
    · rename_i hg
      simp [hg] at hres
    · cases lookup with
      | threw => rfl
      | data requests =>
        simp only
        split <;> rfl
  have hq : actionRequestId s lookup
      = ([.pendingList], some rid, { actionAwaitingLookup s with incomingRequestId := some rid }) := by
    unfold actionRequestId
    simp [hunresolved, hcalls, hres]
  constructor
  · unfold handleRejectIncoming
    simp only [hfree, hq, Bool.false_eq_true, if_false, hrid]
    cases restOk <;> simp
  · intro s' hs' lookup' restOk'
    have hload : s'.requestActionLoading = true := by
      unfold actionInProgress at hs'
      simp only [hfree, Bool.false_eq_true, if_false, hq, List.mem_cons, List.mem_singleton,
        List.not_mem_nil, or_false] at hs'
      rcases hs' with h | h <;> subst h <;> rfl
    have hb := blocked_of_loading s' hload
    exact ⟨by simp [handleRejectIncoming, hb], by simp [handleAcceptIncoming, hb]⟩

/-- C20 witness: y's request with its id unresolved; the pending list maps y to r7. -/
theorem reject_waits_for_resolution_witness :
    (handleRejectIncoming
        { incomingRequest := some { requester := some { user_id := some "y" } },
          requestCardVisible := true, pendingRequestsCount := 1, token := some "t" }
        (.data (some [{ requester_user_id := some "y", request_id := some "r7" }])) true).2
      = [.pendingList, .reject "r7"] :=
  (reject_waits_for_resolution
    { incomingRequest := some { requester := some { user_id := some "y" } },
      requestCardVisible := true, pendingRequestsCount := 1, token := some "t" }
    (.data (some [{ requester_user_id := some "y", request_id := some "r7" }])) true "r7"
    (by decide) (by decide) (by decide) (by decide)).1

end RadarScreen

namespace RadarScreen

/-! ## C21 -/

theorem resolve_result_truthy (token requesterId : Option String) (lookup : PendingResult)
    (id : String) (h : (resolveIncomingRequestId token requesterId lookup).2 = some id) :
    id ≠ "" := by
  unfold resolveIncomingRequestId at h
  split at h
  · simp at h
  · cases lookup with
    | threw => simp at h
    | data requests =>
      simp only at h
      split at h
      · simp at h
      · rename_i found _
        by_cases ht : truthy found.request_id = true
        · simp only [ht, if_true] at h
          rw [h] at ht
          simpa [truthy] using ht
        · simp [ht] at h

theorem actionRequestId_cached (s : RequestCardState) (lookup : PendingResult)
    (h : truthy s.incomingRequestId = true) :
    actionRequestId s lookup = ([], s.incomingRequestId, actionAwaitingLookup s) := by
  simp [actionRequestId, h]

theorem actionRequestId_unresolved (s : RequestCardState) (lookup : PendingResult)
    (h : truthy s.incomingRequestId = false)
    (hres : (resolveIncomingRequestId s.token (requesterIdOf s.incomingRequest) lookup).2 = none) :
    (actionRequestId s lookup).2.1 = none ∧
      ∀ c ∈ (actionRequestId s lookup).1, c = RestCall.pendingList := by
  refine ⟨?_, (actionRequestId_fields s lookup).2.2.2⟩
  simp [actionRequestId, h, hres]

/-- C21, as stated, fails: the card shows y's request with its id unresolved; the
resolution effect has started its pending-list lookup; reject, invoked in that same state,
starts a second pending-list lookup for y while the first is in flight. -/
theorem second_lookup_while_resolving_counterexample :
    resolutionEffectCalls
        { incomingRequest := some { requester := some { user_id := some "y" } },
          requestCardVisible := true, token := some "t" }
        (.data (some [{ requester_user_id := some "y", request_id := some "r7" }]))
      = [.pendingList] ∧
    (handleRejectIncoming
        { incomingRequest := some { requester := some { user_id := some "y" } },
          requestCardVisible := true, token := some "t" }
        (.data (some [{ requester_user_id := some "y", request_id := some "r7" }])) true).2
      = [.pendingList, .reject "r7"] := by
  decide

/-- C21, amended: the resolution effect looks an incoming request's id up once: when its
run has settled, with an id or without, the next commit starts no further lookup, and a
resolved id is cached in incomingRequestId, with which accept and reject make no lookup;
while no id is cached, each accept or reject invocation makes its own pending-list lookup,
and if that lookup resolves nothing it sends no accept and no reject call. -/
theorem resolution_cached_or_nothing_sent (s : RequestCardState)
    (lookup lookup' : PendingResult) (restOk : Bool) :
    (s.incomingRequestId ≠ some "" →
      resolutionTransition s (resolutionEffectDone s lookup) lookup' = []) ∧
    (truthy s.incomingRequestId = true →
      RestCall.pendingList ∉ (handleAcceptIncoming s lookup restOk).2 ∧
      RestCall.pendingList ∉ (handleRejectIncoming s lookup restOk).2) ∧
    (truthy s.incomingRequestId = false →
      (resolveIncomingRequestId s.token (requesterIdOf s.incomingRequest) lookup).2 = none →
      (∀ c ∈ (handleAcceptIncoming s lookup restOk).2, c = RestCall.pendingList) ∧
      (∀ c ∈ (handleRejectIncoming s lookup restOk).2, c = RestCall.pendingList)) := by
  refine ⟨?_, ?_, ?_⟩
  · intro hne
    unfold resolutionTransition
    split
    · rfl
    · rename_i hdeps
      unfold resolutionEffectDone at hdeps ⊢
      by_cases hrun : resolutionEffectRuns s = true
      · simp only [hrun, if_true] at hdeps ⊢
        cases hr : (resolveIncomingRequestId s.token (requesterIdOf s.incomingRequest) lookup).2 with
        | none =>
          exfalso
          apply hdeps
          have hfalsy : truthy s.incomingRequestId = false := by
            simp only [resolutionEffectRuns, Bool.and_eq_true, Bool.not_eq_true'] at hrun
            exact hrun.1.2
          have hnone : s.incomingRequestId = none := by
            cases hc : s.incomingRequestId with
            | none => rfl
            | some v =>
              rw [hc] at hfalsy hne
              simp only [truthy, decide_eq_false_iff_not, not_not] at hfalsy
              exact absurd (by rw [hfalsy]) hne
          simp [resolutionDeps, hr, hnone]
        | some id =>
          have hid := resolve_result_truthy _ _ _ _ hr
          simp [resolutionEffectCalls, resolutionEffectRuns, truthy, hid]
      · simp [hrun] at hdeps
  · intro hc
    have hq := actionRequestId_cached s lookup hc
    constructor
    · unfold handleAcceptIncoming
      split
      · simp
      · rw [hq]
        cases hi : s.incomingRequestId with
        | none => simp
        | some requestId =>
          simp only
          split
          · simp
          · split <;> simp
    · unfold handleRejectIncoming
      split
      · simp
      · rw [hq]
        cases hi : s.incomingRequestId with
        | none => simp
        | some requestId =>
          simp only
          split
          · simp
          · split <;> simp
  · intro hu hres
    obtain ⟨hnone, hcalls⟩ := actionRequestId_unresolved s lookup hu hres
    constructor
    · unfold handleAcceptIncoming
      split
      · simp
      · rcases hq : actionRequestId s lookup with ⟨calls, rid, s2⟩
        rw [hq] at hnone hcalls
        simp only at hnone
        subst hnone
        exact hcalls
    · unfold handleRejectIncoming
      split
      · simp
      · rcases hq : actionRequestId s lookup with ⟨calls, rid, s2⟩
        rw [hq] at hnone hcalls
        simp only at hnone
        subst hnone
        exact hcalls

/-- C21 witness: y's request, no pending entry matches; reject sends only the lookup. -/
theorem resolution_cached_or_nothing_sent_witness :
    ∀ c ∈ (handleRejectIncoming
        { incomingRequest := some { requester := some { user_id := some "y" } },
          requestCardVisible := true, token := some "t" }
        (.data (some [])) true).2, c = RestCall.pendingList :=
  ((resolution_cached_or_nothing_sent
      { incomingRequest := some { requester := some { user_id := some "y" } },
        requestCardVisible := true, token := some "t" }
      (.data (some [])) .threw true).2.2 (by decide) (by decide)).2

/-! ## C23 -/

/-- C23: after closeRadar completes, whether the remove_user_location request succeeded or
threw, the radar is closed, the nearby-user set is empty, the place id is null and no user
location is held. -/
theorem closeRadar_clears_state (s : RadarState) (requestOk : Bool) :
    (closeRadar s requestOk).1.isOpen = false ∧ (closeRadar s requestOk).1.users = [] ∧
      (closeRadar s requestOk).1.placeId = none ∧
      (closeRadar s requestOk).1.hasLocation = false := by
  cases requestOk <;> exact ⟨rfl, rfl, rfl, rfl⟩

end RadarScreen

namespace Socket

open RadarScreen (truthy)

/-! ## C22 -/

theorem initSocket_existing (m : SocketModule) (token : Option String) (h : Nat)
    (hs : m.socket = some h) : initSocket m token = (m, .returned h) := by
  simp [initSocket, hs]

theorem initSocketCalls_existing (tokens : List (Option String)) :
    ∀ (m : SocketModule) (h : Nat), m.socket = some h → initSocketCalls m tokens = m := by
  induction tokens with
  | nil => intro m h _; rfl
  | cons t rest ih =>
    intro m h hs
    show initSocketCalls (initSocket m t).1 rest = m
    rw [initSocket_existing m t h hs]
    exact ih m h hs

theorem initSocketCalls_created (tokens : List (Option String)) :
    ∀ m : SocketModule, (initSocketCalls m tokens).created ≤ m.created + 1 := by
  induction tokens with
  | nil => intro m; exact Nat.le_succ _
  | cons t rest ih =>
    intro m
    show (initSocketCalls (initSocket m t).1 rest).created ≤ m.created + 1
    cases hs : m.socket with
    | some h =>
      rw [initSocket_existing m t h hs]
      exact ih m
    | none =>
      by_cases ht : truthy t = true
      · have hnew : (initSocket m t).1 = { socket := some m.created, created := m.created + 1 } := by
          simp [initSocket, initSocketResume, hs, ht]
        rw [hnew, initSocketCalls_existing rest _ m.created rfl]
      · have hsame : (initSocket m t).1 = m := by
          simp [initSocket, initSocketResume, hs, ht]
        rw [hsame]
        exact ih m

/-- A call that starts and goes on before anything else happens is `initSocket`. -/
theorem initSteps_start_resume (m : SocketModule) (token : Option String) :
    initSteps { module := m, waiting := 0 } [InitStep.start, InitStep.resume token]
      = { module := (initSocket m token).1, waiting := 0 } := by
  cases hs : m.socket with
  | some h => simp [initSteps, initStep, initSocket, hs]
  | none => simp [initSteps, initStep, initSocket, hs]

/-- Calls made one after the other compose `initSocket`. -/
theorem initSteps_oneAfterTheOther (tokens : List (Option String)) :
    ∀ m : SocketModule,
      initSteps { module := m, waiting := 0 } (oneAfterTheOther tokens)
        = { module := initSocketCalls m tokens, waiting := 0 } := by
  induction tokens with
  | nil => intro m; rfl
  | cons t rest ih =>
    intro m
    have hsplit : oneAfterTheOther (t :: rest)
        = [InitStep.start, InitStep.resume t] ++ oneAfterTheOther rest := by
      simp [oneAfterTheOther]
    have hfold : initSteps { module := m, waiting := 0 } (oneAfterTheOther (t :: rest))
        = initSteps (initSteps { module := m, waiting := 0 } [InitStep.start, InitStep.resume t])
            (oneAfterTheOther rest) := by
      rw [hsplit]
      unfold initSteps
      rw [List.foldl_append]
    rw [hfold, initSteps_start_resume, ih]
    rfl

/-- C22, as stated, fails for calls that overlap. Two calls start on a fresh module before
either has gone on past its await: when both go on with the token t, two connections have
been created. And when the first goes on with the token t and the second finds no token,
the second throws and the module holds the socket of the first. -/
theorem overlapping_initSocket_calls_counterexample :
    (initSteps {} [.start, .start, .resume (some "t"), .resume (some "t")]).module.created = 2 ∧
      (initSocketResume (initSteps {} [.start, .start, .resume (some "t")]).module none).2
        = InitResult.threw ∧
      getSocket (initSteps {} [.start, .start, .resume (some "t"), .resume none]).module
        = some 0 := by
  decide

/-- C22, amended: if a socket already exists, initSocket returns that same socket and
leaves the module, hence the count of connections created, unchanged; so a sequence of
initSocket calls each of which has settled before the next one starts, with no
disconnectSocket between them, creates at most one connection, and none when a socket
existed at the start; an initSocket that throws (no access token) leaves the module as it
was, and with no socket when no other call ran during its await. -/
theorem initSocket_calls_in_turn_single_connection (m : SocketModule)
    (token : Option String) (tokens : List (Option String)) :
    (∀ h, m.socket = some h → initSocket m token = (m, .returned h)) ∧
    (initSteps { module := m, waiting := 0 } (oneAfterTheOther tokens)).module.created
      ≤ m.created + 1 ∧
    (∀ h, m.socket = some h →
      (initSteps { module := m, waiting := 0 } (oneAfterTheOther tokens)).module.created
        = m.created) ∧
    ((initSocketResume m token).2 = .threw → (initSocketResume m token).1 = m) ∧
    ((initSocket m token).2 = .threw →
      (initSocket m token).1 = m ∧ getSocket (initSocket m token).1 = none) := by
  rw [initSteps_oneAfterTheOther]
  refine ⟨fun h hs => initSocket_existing m token h hs, initSocketCalls_created tokens m,
    ?_, ?_, ?_⟩
  · intro h hs
    show (initSocketCalls m tokens).created = m.created
    rw [initSocketCalls_existing tokens m h hs]
  · intro hthrew
    unfold initSocketResume at hthrew ⊢
    by_cases ht : truthy token = true
    · simp [ht] at hthrew
    · simp [ht]
  · intro hthrew
    unfold initSocket initSocketResume at hthrew ⊢
    cases hs : m.socket with
    | some h => simp [hs] at hthrew
    | none =>
      by_cases ht : truthy token = true
      · simp [hs, ht] at hthrew
      · simp [hs, ht, getSocket]

/-- C22 witness: three calls in turn on a fresh module, the stored token present from the
second on, create one connection; a call without token throws and leaves no socket. -/
theorem initSocket_calls_in_turn_single_connection_witness :
    (initSteps {} (oneAfterTheOther [none, some "t", some "t"])).module.created ≤ 1 ∧
      getSocket (initSocket {} none).1 = none :=
  have h := initSocket_calls_in_turn_single_connection {} none [none, some "t", some "t"]
  ⟨h.2.1, (h.2.2.2.2 (by decide)).2⟩

end Socket

namespace NotificationService

open RadarScreen (truthy jsOr)

/-! ## C24 -/

/-- An action on a module that is not initialized and holds no socket and no subscription
leaves it so. -/
theorem act_inert (s : NotificationState) (a : ModuleAction)
    (hi : s.isInitialized = false) (hs : s.subscriptions = []) (hh : s.hasSocket = false) :
    (act s a).isInitialized = false ∧ (act s a).subscriptions = [] ∧
      (act s a).hasSocket = false := by
  have hthrows : connectSocketThrows = true := by decide
  cases a with
  | callInitializeNotifications accessToken =>
    simp only [act, initializeNotifications, hi, hthrows]
    by_cases ht : truthy accessToken = true
    · simp [ht, hi, hs, hh]
    · simp [ht, hi, hs, hh]
  | callSetNotificationHandlers handlers => exact ⟨hi, hs, hh⟩
  | callClearNotificationHandlers => exact ⟨hi, hs, hh⟩
  | callCleanupNotifications => simp [act, cleanupNotifications, clearNotificationHandlers, hs, hh]
  | socketConnect => simp [act, hi, hs, hh]
  | socketDisconnect => simp [act, hi, hs, hh]

/-- From the module's initial state no sequence of actions initializes it, gives it a
socket or subscribes it to an event. -/
theorem runActions_inert (actions : List ModuleAction) :
    ∀ s : NotificationState, s.isInitialized = false → s.subscriptions = [] →
      s.hasSocket = false →
      (runActions s actions).isInitialized = false ∧ (runActions s actions).subscriptions = [] ∧
        (runActions s actions).hasSocket = false := by
  induction actions with
  | nil => intro s hi hs hh; exact ⟨hi, hs, hh⟩
  | cons a rest ih =>
    intro s hi hs hh
    obtain ⟨hi', hs', hh'⟩ := act_inert s a hi hs hh
    exact ih (act s a) hi' hs' hh'

/-- C24 fails in this repository, handler or no handler: the call of connectSocket throws,
so initializeNotifications subscribes to nothing, and after any sequence of calls of the
module's functions and of socket connects and disconnects an incoming-request, accepted or
expired event runs no listener: no handler is invoked and no default alert is performed.
So it is after initializeNotifications with the token t, with no handler registered. -/
theorem no_router_listener_runs (actions : List ModuleAction) (event : RouterEvent)
    (payload : ReceivedPayload) :
    deliver (runActions {} actions) event payload = [] ∧
      registered (runActions {} [.callInitializeNotifications (some "t")]) event = none ∧
      (deliver (runActions {} [.callInitializeNotifications (some "t")]) event payload).any
          isAlert = false := by
  have h := (runActions_inert actions {} rfl rfl rfl).2.1
  have h1 := (runActions_inert [.callInitializeNotifications (some "t")] {} rfl rfl rfl).2.1
  refine ⟨by simp [deliver, h], ?_, by simp [deliver, h1]⟩
  cases event <;> decide

/-! ## C25 -/

/-- C25, as stated, fails: h1 defines only the incoming-request handler, h2 only the
accepted handler; after both registrations the incoming-request handler of h1 is still the
one invoked. -/
theorem handler_of_first_registration_kept_counterexample :
    dispatch
        (setNotificationHandlers
          (setNotificationHandlers {} { onFriendRequestReceived := some (some 1) })
          { onFriendRequestAccepted := some (some 2) })
        .friend_request_received {}
      = [.haptic, .invoke 1 .friend_request_received] := by
  decide

/-- C25, amended: after setNotificationHandlers(h1) followed by setNotificationHandlers(h2),
for every event whose key h2 carries, the registered handler is the value h2 gives (none
when that value is null); for every event whose key h2 does not carry, the registration
left by h1 stays active. -/
theorem setNotificationHandlers_merges (s : NotificationState) (h1 h2 : HandlersArg)
    (event : RouterEvent) :
    (∀ v, givenFor h2 event = some v →
      registered (setNotificationHandlers (setNotificationHandlers s h1) h2) event = v) ∧
    (givenFor h2 event = none →
      registered (setNotificationHandlers (setNotificationHandlers s h1) h2) event
        = registered (setNotificationHandlers s h1) event) := by
  cases event <;>
    exact ⟨fun v hv => by simp [registered, setNotificationHandlers, mergeKey, givenFor] at hv ⊢; simp [hv],
      fun hv => by simp [registered, setNotificationHandlers, mergeKey, givenFor] at hv ⊢; simp [hv]⟩

/-- C25 witness: h2 carries the accepted key, h1 carried another handler for it. -/
theorem setNotificationHandlers_merges_witness :
    registered
        (setNotificationHandlers
          (setNotificationHandlers {} { onFriendRequestAccepted := some (some 1) })
          { onFriendRequestAccepted := some (some 2) })
        .friend_request_accepted = some 2 :=
  (setNotificationHandlers_merges {} { onFriendRequestAccepted := some (some 1) }
    { onFriendRequestAccepted := some (some 2) } .friend_request_accepted).1 (some 2) rfl

/-! ## C26 -/

/-- C26 fails in this repository: the call of connectSocket throws, so no call of
initializeNotifications, after whatever calls and socket events, leaves the module
initialized, with a socket or with a subscription, and none makes a subscribing call. With
the credential t1 and then, the token having changed and the navigator having cleaned up,
with the credential t2, the module ends with t2 stored and nothing subscribed under it. -/
theorem initializeNotifications_never_subscribes (actions : List ModuleAction)
    (accessToken : Option String) :
    (initializeNotifications (runActions {} actions) accessToken).isInitialized = false ∧
      (initializeNotifications (runActions {} actions) accessToken).subscriptions = [] ∧
      (initializeNotifications (runActions {} actions) accessToken).hasSocket = false ∧
      (∀ e, SocketCall.on e ∉ initializeNotificationsCalls (runActions {} actions) accessToken) ∧
      runActions {}
          [.callInitializeNotifications (some "t1"), .callInitializeNotifications (some "t1")]
        = { currentAccessToken := some "t1" } ∧
      runActions {}
          [.callInitializeNotifications (some "t1"), .callCleanupNotifications,
            .callInitializeNotifications (some "t2")]
        = { currentAccessToken := some "t2" } := by
  have h :=
    runActions_inert (actions ++ [.callInitializeNotifications accessToken]) {} rfl rfl rfl
  have happ : runActions {} (actions ++ [.callInitializeNotifications accessToken])
      = initializeNotifications (runActions {} actions) accessToken := by
    simp [runActions, act]
  rw [happ] at h
  have hthrows : connectSocketThrows = true := by decide
  refine ⟨h.1, h.2.1, h.2.2, ?_, by decide, by decide⟩
  intro e
  unfold initializeNotificationsCalls
  rw [hthrows]
  split
  · simp
  · split <;> simp

end NotificationService

namespace PassScreen

/-! ## C27 -/

/-- C27: whenever unlocked is false, every displayed social value is absent whatever the
stored userSocials are: any two locked pass sessions, in particular two that differ only
in their stored socials, produce the same social entries, and handleSocialPress does
nothing. -/
theorem locked_socials_hidden (s1 s2 : PassState) (social : SocialEntry)
    (h1 : s1.unlocked = false) (h2 : s2.unlocked = false) :
    socials s1 = socials s2 ∧ (∀ e ∈ socials s1, e.value = none) ∧
      handleSocialPress s1 social = [] := by
  refine ⟨by simp [socials, h1, h2], ?_, by simp [handleSocialPress, h1]⟩
  intro e he
  simp only [socials, h1, Bool.false_eq_true, if_false, List.mem_cons, List.mem_singleton,
    List.not_mem_nil, or_false] at he
  rcases he with h | h | h <;> subst h <;> rfl

/-- C27 witness: two locked sessions, one storing an instagram handle, one storing none. -/
theorem locked_socials_hidden_witness :
    socials { userSocials := [("instagram", "@x")] } = socials { userSocials := [] } ∧
      (∀ e ∈ socials { userSocials := [("instagram", "@x")] }, e.value = none) ∧
      handleSocialPress { userSocials := [("instagram", "@x")] }
        { key := "instagram", label := "Instagram", value := some "@x" } = [] :=
  locked_socials_hidden { userSocials := [("instagram", "@x")] } { userSocials := [] }
    { key := "instagram", label := "Instagram", value := some "@x" } rfl rfl

/-! ## C29 -/

theorem tick_single (s : PassState) (n : Nat) (t : Int) (hi : s.intervals = [⟨n, t⟩])
    (hr : s.timerRef = some n) :
    (tick s).timerRef = s.timerRef ∧
      ((tick s).intervals = [] ∨ (tick s).intervals = [⟨n, t - 1⟩]) := by
  by_cases ht : t - 1 ≤ 0
  · have h : tick s = { s with intervals := [], seconds := t - 1,
                               navigation := s.navigation ++ [.replaceRadar] } := by
      simp [tick, timerCallback, hi, hr, clearInterval, ht]
    rw [h]
    exact ⟨rfl, Or.inl rfl⟩
  · have h : tick s = { s with intervals := [⟨n, t - 1⟩], seconds := t - 1 } := by
      simp [tick, timerCallback, hi, ht]
    rw [h]
    exact ⟨rfl, Or.inr rfl⟩

theorem reachable_owned (s : PassState) (h : Reachable s) :
    timerOwned s ∧ s.intervals.length ≤ 1 := by
  induction h with
  | init s hi _ =>
    refine ⟨?_, by simp [hi]⟩
    intro iv hiv
    rw [hi] at hiv
    cases hiv
  | unlock s _ ih =>
    have hown : timerOwned { s with unlocked := true, waiting := false, error := none } := ih.1
    have hu : unlock s = _ := startTimer_intervals _ hown
    rw [hu]
    refine ⟨?_, by simp⟩
    intro iv hiv
    simp only [List.mem_singleton] at hiv
    rw [hiv]
  | tick s _ ih =>
    obtain ⟨hown, hlen⟩ := ih
    cases hi : s.intervals with
    | nil =>
      have h : tick s = s := by simp [tick, hi]
      rw [h]
      exact ⟨hown, hlen⟩
    | cons iv rest =>
      have hrest : rest = [] := by
        rw [hi] at hlen
        simpa using hlen
      subst hrest
      have hr : s.timerRef = some iv.id := (hown iv (by rw [hi]; exact List.mem_cons_self _ _)).symm
      obtain ⟨htr, hcases⟩ := tick_single s iv.id iv.t hi hr
      rcases hcases with hc | hc
      · refine ⟨?_, by simp [hc]⟩
        intro jv hjv
        rw [hc] at hjv
        cases hjv
      · refine ⟨?_, by simp [hc]⟩
        intro jv hjv
        rw [hc] at hjv
        simp only [List.mem_singleton] at hjv
        rw [hjv, htr, hr]
  | update s s' _ hi hr ih =>
    refine ⟨?_, by rw [hi]; exact ih.2⟩
    intro iv hiv
    rw [hi] at hiv
    rw [hr]
    exact ih.1 iv hiv

theorem reachable_ticks (k : Nat) : ∀ s : PassState, Reachable s → Reachable (ticks k s) := by
  induction k with
  | zero => intro s h; exact h
  | succ k ih => intro s h; exact ih (tick s) (Reachable.tick s h)

theorem unlock_intervals (s : PassState) (hown : timerOwned s) :
    (unlock s).intervals = [⟨s.nextTimerId, 60⟩] ∧ (unlock s).navigation = s.navigation := by
  have hown2 : timerOwned { s with unlocked := true, waiting := false, error := none } := hown
  have hu : unlock s = _ := startTimer_intervals _ hown2
  rw [hu]
  exact ⟨rfl, rfl⟩

theorem ticks_unlock_navigation (s : PassState) (hown : timerOwned s) (j : Nat) (hj : j < 60) :
    (ticks j (unlock s)).navigation = s.navigation := by
  rcases Nat.eq_zero_or_pos j with h0 | hpos
  · subst h0
    exact (unlock_intervals s hown).2
  · rw [ticks_unlock_before s hown j hpos hj]

/-- C29: in every state the pass screen can reach at most one countdown interval is
active, and startTimer leaves exactly the new one, the countdown running before being
cancelled; a repeated unlock() after j < 60 ticks starts a countdown at 60 again: k ticks
later the screen shows 60 - k seconds, nothing has expired before the 60th of these ticks,
and the 60th cancels the countdown and requests the replacement of the screen by Radar. -/
theorem single_countdown_restart (s : PassState) (hreach : Reachable s) (j k : Nat)
    (hj : j < 60) (hk0 : 0 < k) (hk : k ≤ 60) :
    s.intervals.length ≤ 1 ∧
    (startTimer s).intervals = [⟨s.nextTimerId, 60⟩] ∧
    (unlock (ticks j (unlock s))).intervals = [⟨(ticks j (unlock s)).nextTimerId, 60⟩] ∧
    (ticks k (unlock (ticks j (unlock s)))).seconds = 60 - (k : Int) ∧
    (k < 60 → (ticks k (unlock (ticks j (unlock s)))).navigation = s.navigation ∧
      (ticks k (unlock (ticks j (unlock s)))).intervals.length = 1) ∧
    (k = 60 → (ticks k (unlock (ticks j (unlock s)))).navigation
        = s.navigation ++ [.replaceRadar] ∧
      (ticks k (unlock (ticks j (unlock s)))).intervals = []) := by
  obtain ⟨hown, hlen⟩ := reachable_owned s hreach
  have hreach' : Reachable (ticks j (unlock s)) :=
    reachable_ticks j _ (Reachable.unlock s hreach)
  have hown' := (reachable_owned _ hreach').1
  have hnav := ticks_unlock_navigation s hown j hj
  refine ⟨hlen, ?_, (unlock_intervals _ hown').1, ?_, ?_, ?_⟩
  · rw [startTimer_intervals s hown]
    rfl
  · rcases Nat.lt_or_ge k 60 with h | h
    · rw [ticks_unlock_before _ hown' k hk0 h]
    · have hk60 : k = 60 := by omega
      subst hk60
      rw [ticks_unlock_expired _ hown']
      norm_num
  · intro h
    rw [ticks_unlock_before _ hown' k hk0 h]
    exact ⟨hnav, rfl⟩
  · intro h
    subst h
    rw [ticks_unlock_expired _ hown']
    exact ⟨by show (ticks j (unlock s)).navigation ++ _ = _; rw [hnav], rfl⟩

/-- C29 witness: unlock, 20 ticks, unlock again, 60 ticks: the screen is replaced then. -/
theorem single_countdown_restart_witness :
    (ticks 60 (unlock (ticks 20 (unlock {})))).navigation = [.replaceRadar] ∧
      (ticks 60 (unlock (ticks 20 (unlock {})))).intervals = [] :=
  have h := single_countdown_restart {} (Reachable.init {} rfl rfl) 20 60 (by decide)
    (by decide) (by decide)
  ⟨by simpa using (h.2.2.2.2.2 rfl).1, (h.2.2.2.2.2 rfl).2⟩

end PassScreen

namespace RadarScreen

/-! ## C28 -/

theorem push_ignored_when_closed (u : Update) (s : RadarState) (hc : s.isOpen = false)
    (hp : isPush u = true) : applyUpdate s u = s := by
  cases u with
  | snapshot payload => simp [applyUpdate, handleNearbyUsers, hc]
  | incremental payload => simp [applyUpdate, handleLocationUpdate, hc]
  | poll mounted r => simp [isPush] at hp

theorem pushes_ignored_when_closed (us : List Update) :
    ∀ s : RadarState, s.isOpen = false → (∀ u ∈ us, isPush u = true) → runUpdates s us = s := by
  induction us with
  | nil => intro s _ _; rfl
  | cons u rest ih =>
    intro s hc hp
    show runUpdates (applyUpdate s u) rest = s
    rw [push_ignored_when_closed u s hc (hp u (List.mem_cons_self _ _))]
    exact ih s hc (fun v hv => hp v (List.mem_cons_of_mem _ hv))

/-- C28: while the radar is closed, every snapshot and every incremental event leaves the
state, hence the nearby-user set, unchanged; so once closeRadar has emptied the set it
stays empty under any sequence of push events, as long as the radar is not opened. -/
theorem closed_radar_ignores_push (s : RadarState) (snapshot : NearbyUsersPayload)
    (incremental : LocationUpdatePayload) (requestOk : Bool) (us : List Update) :
    (s.isOpen = false →
      (handleNearbyUsers s snapshot).users = s.users ∧
      (handleLocationUpdate s incremental).users = s.users) ∧
    ((∀ u ∈ us, isPush u = true) →
      (runUpdates (closeRadar s requestOk).1 us).users = [] ∧
      (runUpdates (closeRadar s requestOk).1 us).isOpen = false) := by
  constructor
  · intro hc
    exact ⟨by simp [handleNearbyUsers, hc], by simp [handleLocationUpdate, hc]⟩
  · intro hp
    have hclosed : (closeRadar s requestOk).1.isOpen = false := by cases requestOk <;> rfl
    rw [pushes_ignored_when_closed us _ hclosed hp]
    cases requestOk <;> exact ⟨rfl, rfl⟩

/-- C28 witness: the radar holding a is closed; a snapshot and an entry event follow. -/
theorem closed_radar_ignores_push_witness :
    (runUpdates
        (closeRadar
          { isOpen := true, placeId := some "p1", token := some "t",
            users := (buildRadarUser { user_id := some "a" }).toList } true).1
        [.snapshot { place_id := some "p1", users := some [{ user_id := some "b" }] },
         .incremental { place_id := some "p1", user := some { user_id := some "c" },
                        event_type := some "user_entered" }]).users = [] :=
  ((closed_radar_ignores_push
      { isOpen := true, placeId := some "p1", token := some "t",
        users := (buildRadarUser { user_id := some "a" }).toList }
      {} {} true
      [.snapshot { place_id := some "p1", users := some [{ user_id := some "b" }] },
       .incremental { place_id := some "p1", user := some { user_id := some "c" },
                      event_type := some "user_entered" }]).2
    (by
      intro u hu
      simp only [List.mem_cons, List.mem_singleton, List.not_mem_nil, or_false] at hu
      rcases hu with h | h <;> subst h <;> rfl)).1

end RadarScreen

namespace RadarScreen

/-! ## C30 -/

theorem codeUnits_ascii (l : List Char) (h : ∀ c ∈ l, c.toNat < 128) :
    l.flatMap charCodes = l.map Char.toNat := by
  induction l with
  | nil => rfl
  | cons c cs ih =>
    have hc : c.toNat < 65536 := by
      have := h c (List.mem_cons_self _ _)
      omega
    rw [List.flatMap_cons, List.map_cons, ih (fun d hd => h d (List.mem_cons_of_mem _ hd))]
    simp [charCodes, hc]

theorem toInt32_id (x : Int) (h0 : -2147483648 ≤ x) (h1 : x < 2147483648) : toInt32 x = x := by
  unfold toInt32
  omega

theorem hashStep_exact (h : Int) (c : Nat) (h0 : 0 ≤ h) (h1 : h ≤ 4000000) :
    hashStep h c = (c : Int) + 31 * h := by
  unfold hashStep shl5
  rw [toInt32_id h (by omega) (by omega), toInt32_id (h * 32) (by omega) (by omega)]
  ring

theorem weightedSum_append (l : List Nat) (c : Nat) :
    weightedSum (l ++ [c]) = 31 * weightedSum l + c := by
  induction l with
  | nil => simp [weightedSum]
  | cons x xs ih =>
    show x * 31 ^ (xs ++ [c]).length + weightedSum (xs ++ [c])
      = 31 * (x * 31 ^ xs.length + weightedSum xs) + c
    rw [ih, List.length_append, List.length_singleton, pow_succ]
    ring

theorem foldl_hashStep_short (l : List Nat) :
    l.length ≤ 5 → (∀ c ∈ l, c < 128) →
      l.foldl hashStep 0 = (weightedSum l : Int) ∧
        30 * weightedSum l + 127 ≤ 127 * 31 ^ l.length := by
  induction l using List.reverseRecOn with
  | nil => intro _ _; exact ⟨rfl, by simp [weightedSum]⟩
  | append_singleton l c ih =>
    intro hlen hc
    rw [List.length_append, List.length_singleton] at hlen
    have hl4 : l.length ≤ 4 := by omega
    obtain ⟨hfold, hb⟩ := ih (by omega) (fun d hd => hc d (List.mem_append_left _ hd))
    have hc128 : c < 128 := hc c (by simp)
    have hpow : 31 ^ l.length ≤ 31 ^ 4 := Nat.pow_le_pow_right (by decide) hl4
    have hp4 : (31 : Nat) ^ 4 = 923521 := by norm_num
    have hw : weightedSum l ≤ 4000000 := by omega
    rw [List.foldl_append, List.foldl_cons, List.foldl_nil, hfold,
      hashStep_exact _ c (by exact_mod_cast Nat.zero_le _) (by exact_mod_cast hw),
      weightedSum_append, List.length_append, List.length_singleton, pow_succ]
    constructor
    · push_cast; ring
    · omega

theorem weightedSum_lt (l : List Nat) (hlen : l.length ≤ 5) (hc : ∀ c ∈ l, c < 128) :
    weightedSum l < 2147483648 := by
  have hb := (foldl_hashStep_short l hlen hc).2
  have hpow : 31 ^ l.length ≤ 31 ^ 5 := Nat.pow_le_pow_right (by decide) hlen
  have hp5 : (31 : Nat) ^ 5 = 28629151 := by norm_num
  omega

/-- C30: for every id of at most 5 characters whose character codes are all below 128, the
hash of buildRadarUser is the sum over i of code(id[i]) * 31^(n-1-i), a value below 2^31
that no ToInt32 reduction has changed; hence the angle is that sum modulo 360 and the
distance is the double 0.25 + (that sum modulo 50)/100, which is within 2^-53 of the
rational of that name. -/
theorem short_ascii_id_hash (id : String) (hlen : id.length ≤ 5)
    (hascii : ∀ c ∈ id.toList, c.toNat < 128) :
    idHash id = (weightedSum (id.toList.map Char.toNat) : Int) ∧
    weightedSum (id.toList.map Char.toNat) < 2147483648 ∧
    ∀ u, rawId u = some id → id ≠ "" →
      ∃ r, buildRadarUser u = some r ∧
        r.angle = weightedSum (id.toList.map Char.toNat) % 360 ∧
        r.distance
          = doubleValue
              (addQuarter (roundDouble (weightedSum (id.toList.map Char.toNat) % 50) 100)) ∧
        |r.distance
            - (1 / 4 + (((weightedSum (id.toList.map Char.toNat) % 50 : Nat) : ℚ)) / 100)|
          ≤ 1 / 2 ^ 53 := by
  have hl : (id.toList.map Char.toNat).length ≤ 5 := by
    rw [List.length_map]
    exact hlen
  have hc : ∀ c ∈ id.toList.map Char.toNat, c < 128 := by
    intro c hcm
    rw [List.mem_map] at hcm
    obtain ⟨ch, hch, rfl⟩ := hcm
    exact hascii ch hch
  have hsum := (foldl_hashStep_short _ hl hc).1
  have hbound := weightedSum_lt _ hl hc
  have hhash : idHash id = (weightedSum (id.toList.map Char.toNat) : Int) := by
    unfold idHash codeUnits
    rw [codeUnits_ascii _ hascii]
    exact hsum
  refine ⟨hhash, hbound, ?_⟩
  intro u hu hne
  obtain ⟨r, hr, ha, hd⟩ := buildRadarUser_eq hu hne
  have hnat : (idHash id).natAbs = weightedSum (id.toList.map Char.toNat) := by
    rw [hhash]
    exact Int.natAbs_ofNat _
  rw [hnat] at ha hd
  have hclose :=
    (placement_double (weightedSum (id.toList.map Char.toNat) % 50)
      (Nat.mod_lt _ (by decide))).2.2
  rw [← hd] at hclose
  exact ⟨r, hr, ha, hd, hclose⟩

/-- C30 witness: the id A has hash 65, angle 65 and, for distance, the double 0.40, the
double nearest to 2/5. -/
theorem short_ascii_id_hash_witness :
    idHash "A" = 65 ∧
      ∃ r, buildRadarUser { user_id := some "A" } = some r ∧ r.angle = 65 ∧
        r.distance = doubleValue (roundDouble 2 5) := by
  have h := short_ascii_id_hash "A" (by decide) (by decide)
  obtain ⟨r, hr, ha, hd, _⟩ := h.2.2 { user_id := some "A" } rfl (by decide)
  refine ⟨by rw [h.1]; rfl, r, hr, ?_, ?_⟩
  · rw [ha]; rfl
  · rw [hd]
    have h15 : weightedSum ("A".toList.map Char.toNat) % 50 = 15 := by rfl
    rw [h15]
    have hd40 : addQuarter (roundDouble 15 100) = roundDouble 2 5 := by decide
    rw [hd40]

end RadarScreen
